import Mathlib

set_option maxRecDepth 10000

/-!
Verification of the ember-cli-addon-docs setup scaffolder.

The repository holds two near-identical one-shot Node scripts
(src/lib/setupDoc.js and an unnamed sibling, called Part0 below) that write a
fixed set of template files into a consumer application directory tree.
This file gives a shallow embedding of both scripts over an explicit
filesystem state and proves properties of their runs.

Modelling conventions:
- A filesystem is a map from path strings to optional file contents plus a
  set of directories.  fs.existsSync answers true when the path is occupied
  by a file or a directory, matching Node fs.existsSync.
- fs.writeFileSync always succeeds in the model; the event trace records,
  for each write, whether the parent directory existed at that moment, so
  that the directory precondition can be observed instead of modelled as a
  syscall failure.  fs.readFileSync on a path that is not a regular file,
  JSON.parse on malformed input, and dereferencing an undeclared identifier
  are modelled as crashes (the Except error branch), carrying the state at
  the moment of the crash: files already written stay on disk.
- mkdirSync with the recursive flag is collapsed to the creation of the one
  requested directory, since no claim observes intermediate directories.
- Node path.join and path.dirname are modelled for the argument shapes the
  scripts use (plain relative segments, an optional one-leading-slash
  segment); JavaScript template-literal interpolation of an undefined value
  renders the text undefined, modelled by jsInterp; String.prototype.trim
  strips leading and trailing whitespace, modelled by jsTrim over the
  character list.
-/

/-- Whitespace test used by jsTrim; covers the whitespace characters that
occur in the template literals of the scripts. -/
def jsWhitespace (c : Char) : Bool :=
  c = ' ' || c = '\n' || c = '\t' || c = '\r'

/-- Model of JavaScript String.prototype.trim: strip leading and trailing
whitespace. -/
def jsTrim (s : String) : String :=
  ⟨((s.data.dropWhile jsWhitespace).reverse.dropWhile jsWhitespace).reverse⟩

/-- Drop characters of a reversed character list up to and including the
first slash; helper for jsDirname. -/
def dropUntilSlashRev : List Char → List Char
  | [] => []
  | c :: cs => if c = '/' then cs else dropUntilSlashRev cs

/-- Model of Node path.dirname for the simple slash-separated paths the
scripts build: everything before the last slash. -/
def jsDirname (p : String) : String :=
  ⟨(dropUntilSlashRev p.data.reverse).reverse⟩

/-- Model of Node path.join for the two-argument shapes used by the scripts:
segments are glued with one slash, and a leading slash on the second
argument is collapsed rather than duplicated. -/
def pathJoin (a b : String) : String :=
  if b.data.head? = some '/' then a ++ b else a ++ "/" ++ b

/-- JavaScript template-literal interpolation of a possibly undefined
value: an undefined field renders as the text undefined. -/
def jsInterp : Option String → String
  | some s => s
  | none => "undefined"

/-- Boolean substring test (used only in theorem statements). -/
def strContains (s pat : String) : Bool :=
  decide (pat.data <:+: s.data)

/-- A parsed manifest (the result of JSON.parse on package.json) is modelled
as an association list of string fields; the scripts read only the name and
repository fields. -/
abbrev Manifest := List (String × String)

/-- Filesystem state: regular files (path to contents) and directories. -/
@[ext] structure FS where
  files : String → Option String
  dirs : String → Bool

/-- Model of Node fs.existsSync: the path is occupied by a file or a
directory. -/
def FS.existsSync (fs : FS) (p : String) : Bool :=
  (fs.files p).isSome || fs.dirs p

/-- Model of Node fs.writeFileSync: overwrite or create the file at p. -/
def FS.writeFileSync (fs : FS) (p c : String) : FS :=
  { fs with files := fun q => if q = p then some c else fs.files q }

/-- Model of Node fs.mkdirSync with the recursive option, collapsed to the
creation of the requested directory itself. -/
def FS.mkdirSync (fs : FS) (p : String) : FS :=
  { fs with dirs := fun q => q = p || fs.dirs q }

/-- Observable events of a run: console warnings, console info lines, and
file writes.  Each write records the written path, the written content and
whether the parent directory existed at the moment of the write. -/
inductive Event where
  | warn (msg : String)
  | info (msg : String)
  | write (path content : String) (parentDirExists : Bool)
deriving DecidableEq

/-- Run state: current filesystem plus the chronological event trace. -/
structure St where
  fs : FS
  events : List Event

/-- Initial run state over a filesystem. -/
def St.init (fs : FS) : St := { fs := fs, events := [] }

/-- Record a console warning. -/
def St.warn (st : St) (m : String) : St :=
  { st with events := st.events ++ [Event.warn m] }

/-- Record a console info line. -/
def St.info (st : St) (m : String) : St :=
  { st with events := st.events ++ [Event.info m] }

/-- Perform and record a file write; the recorded flag says whether the
parent directory exists at this moment. -/
def St.write (st : St) (p c : String) : St :=
  { fs := st.fs.writeFileSync p c,
    events := st.events ++ [Event.write p c (st.fs.dirs (jsDirname p))] }

/-- Embedding of the helper ensureDir of both scripts: create the directory
unless the path already exists (as a file or as a directory). -/
def FS.ensureDir (fs : FS) (dirPath : String) : FS :=
  if fs.existsSync dirPath then fs else fs.mkdirSync dirPath

/-- ensureDir lifted to run states. -/
def St.ensureDir (st : St) (dirPath : String) : St :=
  { st with fs := st.fs.ensureDir dirPath }

/-- Fixed router template written by updateRouter in both scripts; the
escape sequences x7b, x7d and x27 stand for braces and the single quote,
and the backslash-star of the source resolves to a plain star. -/
def routerContent : String :=
  "import AddonDocsRouter, \x7b docsRoute \x7d from \x27ember-cli-addon-docs/router\x27;\nimport config from \x27./config/environment\x27;\n\nconst Router = AddonDocsRouter.extend(\x7b\n  location: config.locationType,\n  rootURL: config.rootURL,\n\x7d);\n\nRouter.map(function() \x7b\n  docsRoute(this, function() \x7b \n   \x7d);\n  this.route(\x27not-found\x27, \x7b path: \x27/*path\x27 \x7d);\n\x7d);\n\nexport default Router;"

/-- Content written to application.hbs by updateApplicationTemplate: the
template literal of the source with the two interpolation points filled in
and trimmed, exactly as the source computes it. -/
def applicationTemplate (addonName repoUrl : String) : String :=
  jsTrim ("\n\x7b\x7bpage-title \"" ++ addonName ++ "\"\x7d\x7d\n<DocsHeader @prefix=\"Droid\" @name=\"" ++ addonName ++ "\" @githubUrl=\"" ++ repoUrl ++ "\" />\n\x7b\x7boutlet\x7d\x7d\n  ")

/-- Placeholder written to docs/index.md when README.md is absent. -/
def placeholderDocsIndex : String :=
  "# Documentation\n\nAddon documentation goes here."

/-- Fixed layout template written to index.hbs (trimmed as in the source). -/
def indexLayoutContent : String :=
  jsTrim ("<DocsHero/>\n\n<div style=\"max-width: 40rem; margin: 0 auto; padding: 0 1.5rem\">\n  <DocsDemo as |demo|>\n    <demo.example @name=\"my-demo.hbs\">\n      <p>Make sure to read up on the DocsDemo component before building out this page.</p>\n    </demo.example>\n  </DocsDemo>\n</div>\n  ")

/-- Fixed layout template written to docs.hbs (trimmed as in the source). -/
def docsLayoutContent : String :=
  jsTrim ("\n<DocsViewer as |viewer|>\n  <viewer.nav as |nav|>\n    <nav.section @label=\"Introduction\" />\n    <nav.item @label=\"Overview\" @route=\"docs.index\" /> \n  </viewer.nav>\n\n  <viewer.main>\n    \x7b\x7boutlet\x7d\x7d\n  </viewer.main>\n</DocsViewer>\n  ")

/-- State extracted from a finished or crashed run. -/
def finalSt : Except St St → St
  | Except.ok st => st
  | Except.error st => st

/-- Whether a run finished without crashing. -/
def runOk : Except St St → Bool
  | Except.ok _ => true
  | Except.error _ => false

/-- Whether an event is a file write. -/
def Event.isWrite : Event → Bool
  | Event.write _ _ _ => true
  | _ => false

/-- The write events of a trace, in order. -/
def writeEvents (es : List Event) : List Event :=
  es.filter Event.isWrite

/-- The parent-directory flag of a write event (true for non-writes). -/
def Event.parentOk : Event → Bool
  | Event.write _ _ b => b
  | _ => true

/-- Every write of the trace found its parent directory in place. -/
def allWritesParented (es : List Event) : Bool :=
  es.all Event.parentOk

namespace Lib

/-- Embedding of updateRouter from src/lib/setupDoc.js: skip with a warning
when app/router.js does not exist, otherwise overwrite it with the fixed
router template. -/
def updateRouter (testAppRoot : String) (st : St) : St :=
  let routerPath := pathJoin testAppRoot "app/router.js"
  if !(st.fs.existsSync routerPath) then
    st.warn "router.js not found, skipping router setup."
  else
    (st.write routerPath routerContent).info "Updated router.js"

/-- Embedding of updateApplicationTemplate from src/lib/setupDoc.js: ensure
the templates directory exists, then overwrite application.hbs with the
interpolated template. -/
def updateApplicationTemplate (testAppRoot : String) (addonName repoUrl : Option String) (st : St) : St :=
  let appTemplatePath := pathJoin testAppRoot "app/templates/application.hbs"
  let st := st.ensureDir (jsDirname appTemplatePath)
  let content := applicationTemplate (jsInterp addonName) (jsInterp repoUrl)
  (st.write appTemplatePath content).info "Updated application.hbs"

/-- Embedding of createDocsIndex from src/lib/setupDoc.js: ensure the docs
directory exists; if README.md is absent write a fixed placeholder with a
warning, otherwise copy the README contents byte for byte.  The error
branch models fs.readFileSync crashing when the README path exists but is
not a regular file. -/
def createDocsIndex (testAppRoot addonRoot : String) (st : St) : Except St St :=
  let readmePath := pathJoin addonRoot "README.md"
  let docsDir := pathJoin testAppRoot "app/templates/docs"
  let docsFile := pathJoin docsDir "index.md"
  let st := st.ensureDir docsDir
  if !(st.fs.existsSync readmePath) then
    Except.ok ((st.warn "README.md not found, creating a placeholder index.md.").write docsFile placeholderDocsIndex)
  else
    match st.fs.files readmePath with
    | none => Except.error st
    | some readmeContent =>
        Except.ok ((st.write docsFile readmeContent).info "Created docs/index.md from README.md")

/-- Embedding of createIndexLayout from src/lib/setupDoc.js.  The first
statement of the source body evaluates path.join(addonRoot, testApp, ...)
where testApp is an identifier never declared anywhere in that module; in
an ES module this throws a ReferenceError before any filesystem side
effect, so the function is modelled as an immediate crash leaving the
state untouched. -/
def createIndexLayout (st : St) : Except St St :=
  Except.error st

/-- Embedding of createDocsLayout from src/lib/setupDoc.js; unreachable in a
run of this script because createIndexLayout always crashes first, included
for completeness. -/
def createDocsLayout (testAppRoot : String) (st : St) : St :=
  let docsLayoutPath := pathJoin testAppRoot "app/templates/docs.hbs"
  let st := st.ensureDir (jsDirname docsLayoutPath)
  (st.write docsLayoutPath docsLayoutContent).info "Created docs.hbs"

/-- Embedding of getParentPackageInfo from src/lib/setupDoc.js: warn and
return an empty record when package.json is absent, otherwise read and
parse it.  parse is the JSON.parse model supplied as a parameter; its
failure, like fs.readFileSync on a non-file, is an uncaught crash. -/
def getParentPackageInfo (parse : String → Option Manifest) (addonRoot : String) (st : St) : Except St (Manifest × St) :=
  let pkgPath := pathJoin addonRoot "package.json"
  if !(st.fs.existsSync pkgPath) then
    Except.ok ([], st.warn "Could not find parent package.json")
  else
    match st.fs.files pkgPath with
    | none => Except.error st
    | some c =>
        match parse c with
        | none => Except.error st
        | some m => Except.ok (m, st)

/-- Embedding of setupDoc from src/lib/setupDoc.js.  path.resolve of the
initial working directory with one parent step and the segment addon is
modelled for an absolute base without trailing slash.  The run always
crashes at createIndexLayout, so createDocsLayout and the final banner are
never reached. -/
def setupDoc (parse : String → Option Manifest) (initCwd : String) (st : St) : Except St St :=
  let testAppRoot := initCwd
  let addonRoot := pathJoin (jsDirname initCwd) "addon"
  let st := st.info "addon root / test-app root"
  match getParentPackageInfo parse addonRoot st with
  | Except.error st => Except.error st
  | Except.ok (packageInfo, st) =>
      let addonName := packageInfo.lookup "name"
      let repoUrl := packageInfo.lookup "repository"
      let st := st.info ("Setting up ember-cli-addon-docs for " ++ jsInterp addonName ++ "...")
      let st := updateRouter testAppRoot st
      let st := updateApplicationTemplate testAppRoot addonName repoUrl st
      match createDocsIndex testAppRoot addonRoot st with
      | Except.error st => Except.error st
      | Except.ok st => createIndexLayout st

end Lib

namespace Part0

/-- Module-level constant of the unnamed sibling script (src/unnamed/part_000). -/
def testApp : String := "test-app/app"

/-- Embedding of updateRouter from src/unnamed/part_000. -/
def updateRouter (addonRoot : String) (st : St) : St :=
  let routerPath := pathJoin (pathJoin addonRoot testApp) "/router.js"
  if !(st.fs.existsSync routerPath) then
    st.warn "router.js not found, skipping router setup."
  else
    (st.write routerPath routerContent).info "Updated router.js"

/-- Embedding of updateApplicationTemplate from src/unnamed/part_000. -/
def updateApplicationTemplate (addonRoot : String) (addonName repoUrl : Option String) (st : St) : St :=
  let appTemplatePath := pathJoin (pathJoin addonRoot testApp) "/templates/application.hbs"
  let st := st.ensureDir (jsDirname appTemplatePath)
  let content := applicationTemplate (jsInterp addonName) (jsInterp repoUrl)
  (st.write appTemplatePath content).info "Updated application.hbs"

/-- Embedding of createDocsIndex from src/unnamed/part_000; same comments
as the sibling embedding. -/
def createDocsIndex (addonRoot : String) (st : St) : Except St St :=
  let readmePath := pathJoin addonRoot "README.md"
  let docsDir := pathJoin (pathJoin addonRoot testApp) "/templates/docs"
  let docsFile := pathJoin docsDir "index.md"
  let st := st.ensureDir docsDir
  if !(st.fs.existsSync readmePath) then
    Except.ok ((st.warn "README.md not found, creating a placeholder index.md.").write docsFile placeholderDocsIndex)
  else
    match st.fs.files readmePath with
    | none => Except.error st
    | some readmeContent =>
        Except.ok ((st.write docsFile readmeContent).info "Created docs/index.md from README.md")

/-- Embedding of createIndexLayout from src/unnamed/part_000, where the
testApp constant is declared, so the emitter works. -/
def createIndexLayout (addonRoot : String) (st : St) : St :=
  let indexLayoutPath := pathJoin (pathJoin addonRoot testApp) "/templates/index.hbs"
  let st := st.ensureDir (jsDirname indexLayoutPath)
  (st.write indexLayoutPath indexLayoutContent).info "Created index.hbs"

/-- Embedding of createDocsLayout from src/unnamed/part_000. -/
def createDocsLayout (addonRoot : String) (st : St) : St :=
  let docsLayoutPath := pathJoin (pathJoin addonRoot testApp) "/templates/docs.hbs"
  let st := st.ensureDir (jsDirname docsLayoutPath)
  (st.write docsLayoutPath docsLayoutContent).info "Created docs.hbs"

/-- Embedding of getParentPackageInfo from src/unnamed/part_000. -/
def getParentPackageInfo (parse : String → Option Manifest) (parentRoot : String) (st : St) : Except St (Manifest × St) :=
  let pkgPath := pathJoin parentRoot "package.json"
  if !(st.fs.existsSync pkgPath) then
    Except.ok ([], st.warn "Could not find parent package.json")
  else
    match st.fs.files pkgPath with
    | none => Except.error st
    | some c =>
        match parse c with
        | none => Except.error st
        | some m => Except.ok (m, st)

/-- Embedding of setupDoc from src/unnamed/part_000: the full five-emitter
sequence over the addon root derived from the initial working directory. -/
def setupDoc (parse : String → Option Manifest) (initCwd : String) (st : St) : Except St St :=
  let addonRoot := pathJoin (jsDirname initCwd) "addon"
  let st := st.info "ADDON ROOT"
  match getParentPackageInfo parse addonRoot st with
  | Except.error st => Except.error st
  | Except.ok (packageInfo, st) =>
      let addonName := packageInfo.lookup "name"
      let repoUrl := packageInfo.lookup "repository"
      let st := st.info ("Setting up ember-cli-addon-docs for " ++ jsInterp addonName ++ "...")
      let st := updateRouter addonRoot st
      let st := updateApplicationTemplate addonRoot addonName repoUrl st
      match createDocsIndex addonRoot st with
      | Except.error st => Except.error st
      | Except.ok st =>
          let st := createIndexLayout addonRoot st
          let st := createDocsLayout addonRoot st
          Except.ok (st.info "ember-cli-addon-docs setup completed successfully!")

end Part0

/-! Concrete inputs used for counterexamples and witnesses. -/

/-- A concrete JSON.parse model: exactly one string parses, to a manifest
holding the two fields the spec examples use. -/
def parseFoo : String → Option Manifest :=
  fun s => if s = "PKG" then some [("name", "Foo"), ("repository", "https://x")] else none

/-- A concrete well-formed starting filesystem: manifest, README and an
existing router file under the conventional layout for an initial working
directory of /proj/test-app. -/
def fsDemo : FS :=
  { files := fun p =>
      if p = "/proj/addon/package.json" then some "PKG"
      else if p = "/proj/addon/README.md" then some "my readme"
      else if p = "/proj/test-app/app/router.js" then some "old router" else none,
    dirs := fun p =>
      p = "/proj" || p = "/proj/addon" || p = "/proj/test-app" || p = "/proj/test-app/app" }

/-- A concrete starting filesystem holding only the manifest: no README,
no router file. -/
def fsBare : FS :=
  { files := fun p => if p = "/proj/addon/package.json" then some "PKG" else none,
    dirs := fun p => p = "/proj" || p = "/proj/addon" || p = "/proj/test-app" }

/-- A concrete starting filesystem in which a regular file occupies the
path of the templates directory. -/
def fsBlocked : FS :=
  { files := fun p =>
      if p = "/proj/addon/package.json" then some "PKG"
      else if p = "/proj/test-app/app/templates" then some "surprise" else none,
    dirs := fun p =>
      p = "/proj" || p = "/proj/addon" || p = "/proj/test-app" || p = "/proj/test-app/app" }

/-- A concrete JSON.parse model accepting two different manifest texts
whose parses agree on name and repository but differ in an extra field. -/
def parseTwo : String → Option Manifest :=
  fun s =>
    if s = "PKG" then some [("name", "Foo"), ("repository", "https://x")]
    else if s = "PKG2" then
      some [("name", "Foo"), ("repository", "https://x"), ("private", "yes")]
    else none

/-- The writes of a trace as path-content pairs, forgetting the
parent-directory observation. -/
def writesOf (es : List Event) : List (String × String) :=
  es.filterMap fun e => match e with
    | Event.write p c _ => some (p, c)
    | _ => none

/-! Path and string infrastructure lemmas. -/

theorem suffix_data_append (a u : String) : u.data <:+ (a ++ u).data := by
  rw [String.data_append]
  exact List.suffix_append a.data u.data

/-- Two appended strings are distinct whenever their second parts are
incomparable as suffixes; all paths handled below have such final parts. -/
theorem append_ne_append (a b u v : String)
    (h1 : ¬ u.data <:+ v.data) (h2 : ¬ v.data <:+ u.data) : a ++ u ≠ b ++ v := by
  intro he
  have hu : u.data <:+ (a ++ u).data := suffix_data_append a u
  have hv : v.data <:+ (b ++ v).data := suffix_data_append b v
  rw [← he] at hv
  rcases List.suffix_or_suffix_of_suffix hu hv with h | h
  · exact h1 h
  · exact h2 h

theorem pathJoin_rel (a b : String) (h : ¬ b.data.head? = some '/') :
    pathJoin a b = a ++ "/" ++ b := by
  simp only [pathJoin]
  rw [if_neg h]

theorem pathJoin_abs (a b : String) (h : b.data.head? = some '/') :
    pathJoin a b = a ++ b := by
  simp only [pathJoin]
  rw [if_pos h]

@[simp] theorem pathJoin_routerSeg (a : String) :
    pathJoin a "app/router.js" = a ++ "/app/router.js" := by
  rw [pathJoin_rel a _ (by decide), String.append_assoc]; rfl

@[simp] theorem pathJoin_appTmplSeg (a : String) :
    pathJoin a "app/templates/application.hbs" = a ++ "/app/templates/application.hbs" := by
  rw [pathJoin_rel a _ (by decide), String.append_assoc]; rfl

@[simp] theorem pathJoin_docsDirSeg (a : String) :
    pathJoin a "app/templates/docs" = a ++ "/app/templates/docs" := by
  rw [pathJoin_rel a _ (by decide), String.append_assoc]; rfl

@[simp] theorem pathJoin_docsHbsSeg (a : String) :
    pathJoin a "app/templates/docs.hbs" = a ++ "/app/templates/docs.hbs" := by
  rw [pathJoin_rel a _ (by decide), String.append_assoc]; rfl

@[simp] theorem pathJoin_indexMdSeg (a : String) :
    pathJoin a "index.md" = a ++ "/index.md" := by
  rw [pathJoin_rel a _ (by decide), String.append_assoc]; rfl

@[simp] theorem pathJoin_pkgSeg (a : String) :
    pathJoin a "package.json" = a ++ "/package.json" := by
  rw [pathJoin_rel a _ (by decide), String.append_assoc]; rfl

@[simp] theorem pathJoin_readmeSeg (a : String) :
    pathJoin a "README.md" = a ++ "/README.md" := by
  rw [pathJoin_rel a _ (by decide), String.append_assoc]; rfl

@[simp] theorem pathJoin_addonSeg (a : String) :
    pathJoin a "addon" = a ++ "/addon" := by
  rw [pathJoin_rel a _ (by decide), String.append_assoc]; rfl

@[simp] theorem pathJoin_testAppSeg (a : String) :
    pathJoin a Part0.testApp = a ++ "/test-app/app" := by
  rw [show Part0.testApp = "test-app/app" from rfl,
    pathJoin_rel a _ (by decide), String.append_assoc]; rfl

@[simp] theorem pathJoin_absRouterSeg (a : String) :
    pathJoin a "/router.js" = a ++ "/router.js" :=
  pathJoin_abs a _ (by decide)

@[simp] theorem pathJoin_absAppTmplSeg (a : String) :
    pathJoin a "/templates/application.hbs" = a ++ "/templates/application.hbs" :=
  pathJoin_abs a _ (by decide)

@[simp] theorem pathJoin_absDocsDirSeg (a : String) :
    pathJoin a "/templates/docs" = a ++ "/templates/docs" :=
  pathJoin_abs a _ (by decide)

@[simp] theorem pathJoin_absIndexHbsSeg (a : String) :
    pathJoin a "/templates/index.hbs" = a ++ "/templates/index.hbs" :=
  pathJoin_abs a _ (by decide)

@[simp] theorem pathJoin_absDocsHbsSeg (a : String) :
    pathJoin a "/templates/docs.hbs" = a ++ "/templates/docs.hbs" :=
  pathJoin_abs a _ (by decide)

theorem dropUntilSlashRev_append (l t : List Char) (h : '/' ∈ l) :
    dropUntilSlashRev (l ++ t) = dropUntilSlashRev l ++ t := by
  induction l with
  | nil => cases h
  | cons c cs ih =>
    rcases eq_or_ne c '/' with hc | hc
    · subst hc
      simp [dropUntilSlashRev]
    · have h' : '/' ∈ cs := by
        rcases List.mem_cons.mp h with h0 | h0
        · exact absurd h0.symm hc
        · exact h0
      simp [dropUntilSlashRev, hc, ih h']

/-- jsDirname looks only at the final segment, so it commutes with a prefix
as soon as the second part holds a slash. -/
theorem jsDirname_append (a s : String) (h : '/' ∈ s.data) :
    jsDirname (a ++ s) = a ++ jsDirname s := by
  obtain ⟨la⟩ := a
  obtain ⟨ls⟩ := s
  show (⟨(dropUntilSlashRev ((la ++ ls).reverse)).reverse⟩ : String) =
    ⟨la ++ (dropUntilSlashRev ls.reverse).reverse⟩
  rw [List.reverse_append, dropUntilSlashRev_append _ _ (by simpa using h)]
  congr 1
  simp

@[simp] theorem jsDirname_libAppTmpl (a : String) :
    jsDirname (a ++ "/app/templates/application.hbs") = a ++ "/app/templates" := by
  rw [jsDirname_append _ _ (by decide)]; rfl

@[simp] theorem jsDirname_libRouter (a : String) :
    jsDirname (a ++ "/app/router.js") = a ++ "/app" := by
  rw [jsDirname_append _ _ (by decide)]; rfl

@[simp] theorem jsDirname_libDocsFile (a : String) :
    jsDirname (a ++ "/app/templates/docs/index.md") = a ++ "/app/templates/docs" := by
  rw [jsDirname_append _ _ (by decide)]; rfl

@[simp] theorem jsDirname_libDocsHbs (a : String) :
    jsDirname (a ++ "/app/templates/docs.hbs") = a ++ "/app/templates" := by
  rw [jsDirname_append _ _ (by decide)]; rfl

@[simp] theorem jsDirname_p0Router (a : String) :
    jsDirname (a ++ "/test-app/app/router.js") = a ++ "/test-app/app" := by
  rw [jsDirname_append _ _ (by decide)]; rfl

@[simp] theorem jsDirname_p0AppTmpl (a : String) :
    jsDirname (a ++ "/test-app/app/templates/application.hbs") = a ++ "/test-app/app/templates" := by
  rw [jsDirname_append _ _ (by decide)]; rfl

@[simp] theorem jsDirname_p0DocsFile (a : String) :
    jsDirname (a ++ "/test-app/app/templates/docs/index.md") = a ++ "/test-app/app/templates/docs" := by
  rw [jsDirname_append _ _ (by decide)]; rfl

@[simp] theorem jsDirname_p0IndexHbs (a : String) :
    jsDirname (a ++ "/test-app/app/templates/index.hbs") = a ++ "/test-app/app/templates" := by
  rw [jsDirname_append _ _ (by decide)]; rfl

@[simp] theorem jsDirname_p0DocsHbs (a : String) :
    jsDirname (a ++ "/test-app/app/templates/docs.hbs") = a ++ "/test-app/app/templates" := by
  rw [jsDirname_append _ _ (by decide)]; rfl

@[simp] theorem jsDirname_p0FullRouter (a : String) :
    jsDirname (a ++ "/addon/test-app/app/router.js") = a ++ "/addon/test-app/app" := by
  rw [jsDirname_append _ _ (by decide)]; rfl

@[simp] theorem jsDirname_p0FullAppTmpl (a : String) :
    jsDirname (a ++ "/addon/test-app/app/templates/application.hbs") = a ++ "/addon/test-app/app/templates" := by
  rw [jsDirname_append _ _ (by decide)]; rfl

@[simp] theorem jsDirname_p0FullDocsFile (a : String) :
    jsDirname (a ++ "/addon/test-app/app/templates/docs/index.md") = a ++ "/addon/test-app/app/templates/docs" := by
  rw [jsDirname_append _ _ (by decide)]; rfl

@[simp] theorem jsDirname_p0FullIndexHbs (a : String) :
    jsDirname (a ++ "/addon/test-app/app/templates/index.hbs") = a ++ "/addon/test-app/app/templates" := by
  rw [jsDirname_append _ _ (by decide)]; rfl

@[simp] theorem jsDirname_p0FullDocsHbs (a : String) :
    jsDirname (a ++ "/addon/test-app/app/templates/docs.hbs") = a ++ "/addon/test-app/app/templates" := by
  rw [jsDirname_append _ _ (by decide)]; rfl

/-! Projection lemmas for the filesystem and run state operations. -/

@[simp] theorem FS.files_writeFileSync (fs : FS) (p c q : String) :
    (fs.writeFileSync p c).files q = if q = p then some c else fs.files q := rfl

@[simp] theorem FS.dirs_writeFileSync (fs : FS) (p c : String) :
    (fs.writeFileSync p c).dirs = fs.dirs := rfl

@[simp] theorem FS.files_mkdirSync (fs : FS) (p : String) :
    (fs.mkdirSync p).files = fs.files := rfl

@[simp] theorem FS.files_ensureDir (fs : FS) (d q : String) :
    (fs.ensureDir d).files q = fs.files q := by
  unfold FS.ensureDir
  split <;> rfl

theorem FS.dirs_ensureDir_of_ne (fs : FS) (d q : String) (h : q ≠ d) :
    (fs.ensureDir d).dirs q = fs.dirs q := by
  unfold FS.ensureDir
  split
  · rfl
  · simp [FS.mkdirSync, h]

theorem FS.dirs_ensureDir_self_of_no_file (fs : FS) (d : String) (h : fs.files d = none) :
    (fs.ensureDir d).dirs d = true := by
  unfold FS.ensureDir FS.existsSync
  rw [h]
  cases hd : fs.dirs d
  · simp [FS.mkdirSync]
  · simp [hd]

theorem FS.existsSync_ensureDir_of_ne (fs : FS) (d q : String) (h : q ≠ d) :
    (fs.ensureDir d).existsSync q = fs.existsSync q := by
  unfold FS.existsSync
  rw [FS.files_ensureDir, FS.dirs_ensureDir_of_ne fs d q h]

@[simp] theorem St.fs_warn (st : St) (m : String) : (st.warn m).fs = st.fs := rfl

@[simp] theorem St.fs_info (st : St) (m : String) : (st.info m).fs = st.fs := rfl

@[simp] theorem St.fs_write (st : St) (p c : String) :
    (st.write p c).fs = st.fs.writeFileSync p c := rfl

@[simp] theorem St.fs_ensureDir (st : St) (d : String) :
    (st.ensureDir d).fs = st.fs.ensureDir d := rfl

@[simp] theorem St.events_warn (st : St) (m : String) :
    (st.warn m).events = st.events ++ [Event.warn m] := rfl

@[simp] theorem St.events_info (st : St) (m : String) :
    (st.info m).events = st.events ++ [Event.info m] := rfl

@[simp] theorem St.events_write (st : St) (p c : String) :
    (st.write p c).events = st.events ++ [Event.write p c (st.fs.dirs (jsDirname p))] := rfl

@[simp] theorem St.events_ensureDir (st : St) (d : String) :
    (st.ensureDir d).events = st.events := rfl

@[simp] theorem St.fs_init (fs : FS) : (St.init fs).fs = fs := rfl

@[simp] theorem St.events_init (fs : FS) : (St.init fs).events = [] := rfl

@[simp] theorem finalSt_ok (st : St) : finalSt (Except.ok st) = st := rfl

@[simp] theorem finalSt_error (st : St) : finalSt (Except.error st) = st := rfl

/-! Branch equations and frame lemmas for the emitters of src/lib/setupDoc.js. -/

theorem Lib.updateRouter_absent (r : String) (st : St)
    (h : st.fs.existsSync (r ++ "/app/router.js") = false) :
    Lib.updateRouter r st = st.warn "router.js not found, skipping router setup." := by
  unfold Lib.updateRouter
  simp [h]

theorem Lib.updateRouter_present (r : String) (st : St)
    (h : st.fs.existsSync (r ++ "/app/router.js") = true) :
    Lib.updateRouter r st =
      (st.write (r ++ "/app/router.js") routerContent).info "Updated router.js" := by
  unfold Lib.updateRouter
  simp [h]

theorem Lib.updateApplicationTemplate_eq (r : String) (n u : Option String) (st : St) :
    Lib.updateApplicationTemplate r n u st =
      ((st.ensureDir (r ++ "/app/templates")).write (r ++ "/app/templates/application.hbs")
        (applicationTemplate (jsInterp n) (jsInterp u))).info "Updated application.hbs" := by
  unfold Lib.updateApplicationTemplate
  simp

theorem Lib.createDocsIndex_copy (r a : String) (st : St) (C : String)
    (h : st.fs.files (a ++ "/README.md") = some C) :
    Lib.createDocsIndex r a st = Except.ok
      (((st.ensureDir (r ++ "/app/templates/docs")).write
        (r ++ "/app/templates/docs/index.md") C).info "Created docs/index.md from README.md") := by
  unfold Lib.createDocsIndex
  simp [FS.existsSync, h, String.append_assoc]

theorem Lib.createDocsIndex_placeholder (r a : String) (st : St)
    (h1 : st.fs.files (a ++ "/README.md") = none)
    (h2 : st.fs.dirs (a ++ "/README.md") = false) :
    Lib.createDocsIndex r a st = Except.ok
      (((st.ensureDir (r ++ "/app/templates/docs")).warn
        "README.md not found, creating a placeholder index.md.").write
        (r ++ "/app/templates/docs/index.md") placeholderDocsIndex) := by
  have hne : (a ++ "/README.md") ≠ (r ++ "/app/templates/docs") :=
    append_ne_append _ _ _ _ (by decide) (by decide)
  unfold Lib.createDocsIndex
  simp [FS.existsSync, FS.dirs_ensureDir_of_ne _ _ _ hne, h1, h2, String.append_assoc]

theorem Lib.createDocsIndex_crash (r a : String) (st : St)
    (h1 : st.fs.files (a ++ "/README.md") = none)
    (h2 : st.fs.dirs (a ++ "/README.md") = true) :
    Lib.createDocsIndex r a st = Except.error (st.ensureDir (r ++ "/app/templates/docs")) := by
  have hne : (a ++ "/README.md") ≠ (r ++ "/app/templates/docs") :=
    append_ne_append _ _ _ _ (by decide) (by decide)
  unfold Lib.createDocsIndex
  simp [FS.existsSync, FS.dirs_ensureDir_of_ne _ _ _ hne, h1, h2]

theorem Lib.getParentPackageInfo_absent (parse : String → Option Manifest) (a : String) (st : St)
    (h1 : st.fs.files (a ++ "/package.json") = none)
    (h2 : st.fs.dirs (a ++ "/package.json") = false) :
    Lib.getParentPackageInfo parse a st =
      Except.ok ([], st.warn "Could not find parent package.json") := by
  unfold Lib.getParentPackageInfo
  simp [FS.existsSync, h1, h2]

theorem Lib.getParentPackageInfo_ok (parse : String → Option Manifest) (a : String) (st : St)
    (c : String) (m : Manifest)
    (h1 : st.fs.files (a ++ "/package.json") = some c)
    (h2 : parse c = some m) :
    Lib.getParentPackageInfo parse a st = Except.ok (m, st) := by
  unfold Lib.getParentPackageInfo
  simp [FS.existsSync, h1, h2]

theorem Lib.getParentPackageInfo_badJson (parse : String → Option Manifest) (a : String) (st : St)
    (c : String)
    (h1 : st.fs.files (a ++ "/package.json") = some c)
    (h2 : parse c = none) :
    Lib.getParentPackageInfo parse a st = Except.error st := by
  unfold Lib.getParentPackageInfo
  simp [FS.existsSync, h1, h2]

theorem Lib.getParentPackageInfo_dirCrash (parse : String → Option Manifest) (a : String) (st : St)
    (h1 : st.fs.files (a ++ "/package.json") = none)
    (h2 : st.fs.dirs (a ++ "/package.json") = true) :
    Lib.getParentPackageInfo parse a st = Except.error st := by
  unfold Lib.getParentPackageInfo
  simp [FS.existsSync, h1, h2]

theorem Lib.updateRouter_files (r : String) (st : St) (q : String)
    (h : q ≠ r ++ "/app/router.js") :
    (Lib.updateRouter r st).fs.files q = st.fs.files q := by
  cases hex : st.fs.existsSync (r ++ "/app/router.js")
  · rw [Lib.updateRouter_absent r st hex]
    rfl
  · rw [Lib.updateRouter_present r st hex]
    simp [h]

theorem Lib.updateRouter_dirs (r : String) (st : St) :
    (Lib.updateRouter r st).fs.dirs = st.fs.dirs := by
  cases hex : st.fs.existsSync (r ++ "/app/router.js")
  · rw [Lib.updateRouter_absent r st hex]
    rfl
  · rw [Lib.updateRouter_present r st hex]
    rfl

theorem Lib.updateApplicationTemplate_files (r : String) (n u : Option String) (st : St)
    (q : String) (h : q ≠ r ++ "/app/templates/application.hbs") :
    (Lib.updateApplicationTemplate r n u st).fs.files q = st.fs.files q := by
  rw [Lib.updateApplicationTemplate_eq]
  simp [h]

theorem Lib.updateApplicationTemplate_dirs (r : String) (n u : Option String) (st : St)
    (q : String) (h : q ≠ r ++ "/app/templates") :
    (Lib.updateApplicationTemplate r n u st).fs.dirs q = st.fs.dirs q := by
  rw [Lib.updateApplicationTemplate_eq]
  simp [FS.dirs_ensureDir_of_ne _ _ _ h]

theorem Lib.updateRouter_writes (r : String) (st : St) (p c : String) (b : Bool)
    (h : Event.write p c b ∈ (Lib.updateRouter r st).events) :
    Event.write p c b ∈ st.events ∨ p = r ++ "/app/router.js" := by
  cases hex : st.fs.existsSync (r ++ "/app/router.js")
  · rw [Lib.updateRouter_absent r st hex] at h
    simp at h
    exact Or.inl h
  · rw [Lib.updateRouter_present r st hex] at h
    simp at h
    rcases h with h | h
    · exact Or.inl h
    · exact Or.inr h.1

theorem Lib.updateApplicationTemplate_writes (r : String) (n u : Option String) (st : St)
    (p c : String) (b : Bool)
    (h : Event.write p c b ∈ (Lib.updateApplicationTemplate r n u st).events) :
    Event.write p c b ∈ st.events ∨ p = r ++ "/app/templates/application.hbs" := by
  rw [Lib.updateApplicationTemplate_eq] at h
  simp at h
  rcases h with h | h
  · exact Or.inl h
  · exact Or.inr h.1

theorem Lib.createDocsIndex_files (r a : String) (st : St) (q : String)
    (h : q ≠ r ++ "/app/templates/docs/index.md") :
    (finalSt (Lib.createDocsIndex r a st)).fs.files q = st.fs.files q := by
  cases hf : st.fs.files (a ++ "/README.md") with
  | some C =>
    rw [Lib.createDocsIndex_copy r a st C hf]
    simp [h]
  | none =>
    cases hd : st.fs.dirs (a ++ "/README.md")
    · rw [Lib.createDocsIndex_placeholder r a st hf hd]
      simp [h]
    · rw [Lib.createDocsIndex_crash r a st hf hd]
      simp

theorem Lib.createDocsIndex_dirs (r a : String) (st : St) (q : String)
    (h : q ≠ r ++ "/app/templates/docs") :
    (finalSt (Lib.createDocsIndex r a st)).fs.dirs q = st.fs.dirs q := by
  cases hf : st.fs.files (a ++ "/README.md") with
  | some C =>
    rw [Lib.createDocsIndex_copy r a st C hf]
    simp [FS.dirs_ensureDir_of_ne _ _ _ h]
  | none =>
    cases hd : st.fs.dirs (a ++ "/README.md")
    · rw [Lib.createDocsIndex_placeholder r a st hf hd]
      simp [FS.dirs_ensureDir_of_ne _ _ _ h]
    · rw [Lib.createDocsIndex_crash r a st hf hd]
      simp [FS.dirs_ensureDir_of_ne _ _ _ h]

theorem Lib.createDocsIndex_writes (r a : String) (st : St) (p c : String) (b : Bool)
    (h : Event.write p c b ∈ (finalSt (Lib.createDocsIndex r a st)).events) :
    Event.write p c b ∈ st.events ∨ p = r ++ "/app/templates/docs/index.md" := by
  cases hf : st.fs.files (a ++ "/README.md") with
  | some C =>
    rw [Lib.createDocsIndex_copy r a st C hf] at h
    simp at h
    rcases h with h | h
    · exact Or.inl h
    · exact Or.inr h.1
  | none =>
    cases hd : st.fs.dirs (a ++ "/README.md")
    · rw [Lib.createDocsIndex_placeholder r a st hf hd] at h
      simp at h
      rcases h with h | h
      · exact Or.inl h
      · exact Or.inr h.1
    · rw [Lib.createDocsIndex_crash r a st hf hd] at h
      simp at h
      exact Or.inl h

/-- C1: the claim says the index.hbs layout emitter always writes its fixed
template to consumerRoot/app/templates/index.hbs.  In src/lib/setupDoc.js
the emitter dereferences the undeclared identifier testApp and crashes, so
on a fully conventional input the run aborts and no index.hbs is written,
neither under the consumer root nor under the addon root; the fixed
template content is never emitted at any path. -/
theorem claim1_lib_createIndexLayout_crashes :
    runOk (Lib.setupDoc parseFoo "/proj/test-app" (St.init fsDemo)) = false
    ∧ (finalSt (Lib.setupDoc parseFoo "/proj/test-app" (St.init fsDemo))).fs.files
        "/proj/test-app/app/templates/index.hbs" = none
    ∧ (finalSt (Lib.setupDoc parseFoo "/proj/test-app" (St.init fsDemo))).fs.files
        "/proj/addon/test-app/app/templates/index.hbs" = none
    ∧ (∀ b, Event.write "/proj/test-app/app/templates/index.hbs" indexLayoutContent b ∉
        (finalSt (Lib.setupDoc parseFoo "/proj/test-app" (St.init fsDemo))).events) := by
  decide

/-- C2: when package.json exists but its content does not parse as JSON,
the run of src/lib/setupDoc.js terminates abnormally during metadata
loading, before any emitter runs: the final filesystem is the initial one
and the trace holds no write event. -/
theorem claim2_malformed_manifest_crashes_before_any_write
    (parse : String → Option Manifest) (initCwd : String) (fs : FS) (c : String)
    (h1 : fs.files (jsDirname initCwd ++ "/addon/package.json") = some c)
    (h2 : parse c = none) :
    runOk (Lib.setupDoc parse initCwd (St.init fs)) = false
    ∧ (finalSt (Lib.setupDoc parse initCwd (St.init fs))).fs = fs
    ∧ writeEvents (finalSt (Lib.setupDoc parse initCwd (St.init fs))).events = [] := by
  have h1' : ((St.init fs).info "addon root / test-app root").fs.files
      (pathJoin (jsDirname initCwd) "addon" ++ "/package.json") = some c := by
    simpa [String.append_assoc] using h1
  have heq : Lib.setupDoc parse initCwd (St.init fs) =
      Except.error ((St.init fs).info "addon root / test-app root") := by
    simp only [Lib.setupDoc]
    rw [Lib.getParentPackageInfo_badJson parse _ _ c h1' h2]
  rw [heq]
  exact ⟨rfl, rfl, rfl⟩

/-- Closed witness for claim2: the hypotheses are satisfiable, at a
manifest file whose content no parse accepts. -/
theorem claim2_witness :
    (fsDemo.files (jsDirname "/proj/test-app" ++ "/addon/package.json") = some "PKG"
      ∧ (fun _ => (none : Option Manifest)) "PKG" = none)
    ∧ (runOk (Lib.setupDoc (fun _ => none) "/proj/test-app" (St.init fsDemo)) = false
      ∧ (finalSt (Lib.setupDoc (fun _ => none) "/proj/test-app" (St.init fsDemo))).fs = fsDemo
      ∧ writeEvents (finalSt (Lib.setupDoc (fun _ => none) "/proj/test-app" (St.init fsDemo))).events = []) :=
  ⟨⟨by decide, rfl⟩,
    claim2_malformed_manifest_crashes_before_any_write (fun _ => none) "/proj/test-app" fsDemo "PKG"
      (by decide) rfl⟩

/-- Shape of a src/lib/setupDoc.js run once the manifest loads: the three
reachable emitters run in order, then createIndexLayout crashes. -/
theorem Lib.setupDoc_after_manifest (parse : String → Option Manifest) (initCwd : String)
    (fs : FS) (c : String) (m : Manifest)
    (h1 : fs.files (jsDirname initCwd ++ "/addon/package.json") = some c)
    (h2 : parse c = some m) :
    Lib.setupDoc parse initCwd (St.init fs) =
      (match Lib.createDocsIndex initCwd (pathJoin (jsDirname initCwd) "addon")
          (Lib.updateApplicationTemplate initCwd (m.lookup "name") (m.lookup "repository")
            (Lib.updateRouter initCwd
              (((St.init fs).info "addon root / test-app root").info
                ("Setting up ember-cli-addon-docs for " ++ jsInterp (m.lookup "name") ++ "...")))) with
        | Except.error st => Except.error st
        | Except.ok st => Lib.createIndexLayout st) := by
  simp only [Lib.setupDoc]
  rw [Lib.getParentPackageInfo_ok parse _ _ c m (by simpa [String.append_assoc] using h1) h2]

/-- Shape of a src/lib/setupDoc.js run when the manifest file is absent:
same sequence with an empty manifest, after a warning. -/
theorem Lib.setupDoc_after_no_manifest (parse : String → Option Manifest) (initCwd : String)
    (fs : FS)
    (h1 : fs.files (jsDirname initCwd ++ "/addon/package.json") = none)
    (h2 : fs.dirs (jsDirname initCwd ++ "/addon/package.json") = false) :
    Lib.setupDoc parse initCwd (St.init fs) =
      (match Lib.createDocsIndex initCwd (pathJoin (jsDirname initCwd) "addon")
          (Lib.updateApplicationTemplate initCwd none none
            (Lib.updateRouter initCwd
              ((((St.init fs).info "addon root / test-app root").warn
                  "Could not find parent package.json").info
                ("Setting up ember-cli-addon-docs for " ++ jsInterp none ++ "...")))) with
        | Except.error st => Except.error st
        | Except.ok st => Lib.createIndexLayout st) := by
  simp only [Lib.setupDoc]
  rw [Lib.getParentPackageInfo_absent parse _ _
    (by simpa [String.append_assoc] using h1) (by simpa [String.append_assoc] using h2)]
  rfl

theorem String.eq_of_data (a b : String) (h : a.data = b.data) : a = b := by
  cases a
  cases b
  exact congrArg String.mk h

/-- jsTrim of a string wrapped exactly like the template literals of the
scripts (one leading newline, a trailing newline and two spaces) returns
the middle part whenever that part starts and ends with a brace. -/
theorem jsTrim_wrap (M : String)
    (hhead : M.data.head? = some '\x7b')
    (hlast : M.data.reverse.head? = some '\x7d') :
    jsTrim ("\n" ++ M ++ "\n  ") = M := by
  obtain ⟨c1, l1, hM⟩ : ∃ c l, M.data = c :: l := by
    cases hM : M.data with
    | nil => rw [hM] at hhead; cases hhead
    | cons c l => exact ⟨c, l, rfl⟩
  have hc1 : c1 = '\x7b' := by
    rw [hM] at hhead
    simpa using hhead
  obtain ⟨c2, l2, hR⟩ : ∃ c l, M.data.reverse = c :: l := by
    cases hR : M.data.reverse with
    | nil => rw [hR] at hlast; cases hlast
    | cons c l => exact ⟨c, l, rfl⟩
  have hc2 : c2 = '\x7d' := by
    rw [hR] at hlast
    simpa using hlast
  subst hc1
  subst hc2
  unfold jsTrim
  have hd : ("\n" ++ M ++ "\n  ").data = '\n' :: (M.data ++ ['\n', ' ', ' ']) := by
    rw [String.data_append, String.data_append]
    rfl
  rw [hd]
  have hleft : List.dropWhile jsWhitespace ('\n' :: (M.data ++ ['\n', ' ', ' '])) =
      M.data ++ ['\n', ' ', ' '] := by
    rw [List.dropWhile_cons, hM]
    simp [jsWhitespace]
  rw [hleft]
  have hrev : (M.data ++ ['\n', ' ', ' ']).reverse = ' ' :: ' ' :: '\n' :: M.data.reverse := by
    rw [List.reverse_append]
    rfl
  rw [hrev]
  have hright : List.dropWhile jsWhitespace (' ' :: ' ' :: '\n' :: M.data.reverse) =
      M.data.reverse := by
    rw [List.dropWhile_cons, List.dropWhile_cons, List.dropWhile_cons, hR]
    simp [jsWhitespace]
  rw [hright]
  rw [List.reverse_reverse]

theorem applicationTemplate_arg_eq (n u : String) :
    ("\n\x7b\x7bpage-title \"" ++ n ++ "\"\x7d\x7d\n<DocsHeader @prefix=\"Droid\" @name=\"" ++ n ++
        "\" @githubUrl=\"" ++ u ++ "\" />\n\x7b\x7boutlet\x7d\x7d\n  ") =
      "\n" ++ (("\x7b\x7bpage-title \"" ++ n ++
        "\"\x7d\x7d\n<DocsHeader @prefix=\"Droid\" @name=\"" ++ n ++
        "\" @githubUrl=\"") ++ u ++ "\" />\n\x7b\x7boutlet\x7d\x7d") ++ "\n  " := by
  apply String.eq_of_data
  simp [String.data_append, List.append_assoc]

/-- The application template renders its repository argument verbatim
between two fixed pieces. -/
theorem applicationTemplate_decomp_repo (n u : String) :
    applicationTemplate n u =
      ("\x7b\x7bpage-title \"" ++ n ++ "\"\x7d\x7d\n<DocsHeader @prefix=\"Droid\" @name=\"" ++ n ++
        "\" @githubUrl=\"") ++ u ++ "\" />\n\x7b\x7boutlet\x7d\x7d" := by
  unfold applicationTemplate
  rw [applicationTemplate_arg_eq n u]
  have hsplit1 : (("\x7b\x7bpage-title \"" ++ n ++
      "\"\x7d\x7d\n<DocsHeader @prefix=\"Droid\" @name=\"" ++ n ++
      "\" @githubUrl=\"") ++ u ++ "\" />\n\x7b\x7boutlet\x7d\x7d") =
      "\x7b" ++ (("\x7bpage-title \"" ++ n ++
        "\"\x7d\x7d\n<DocsHeader @prefix=\"Droid\" @name=\"" ++ n ++
        "\" @githubUrl=\"") ++ u ++ "\" />\n\x7b\x7boutlet\x7d\x7d") := by
    apply String.eq_of_data
    simp [String.data_append, List.append_assoc]
  have hsplit2 : (("\x7b\x7bpage-title \"" ++ n ++
      "\"\x7d\x7d\n<DocsHeader @prefix=\"Droid\" @name=\"" ++ n ++
      "\" @githubUrl=\"") ++ u ++ "\" />\n\x7b\x7boutlet\x7d\x7d") =
      (("\x7b\x7bpage-title \"" ++ n ++
        "\"\x7d\x7d\n<DocsHeader @prefix=\"Droid\" @name=\"" ++ n ++
        "\" @githubUrl=\"") ++ u ++ "\" />\n\x7b\x7boutlet\x7d") ++ "\x7d" := by
    apply String.eq_of_data
    simp [String.data_append, List.append_assoc]
  apply jsTrim_wrap
  · rw [hsplit1, String.data_append]
    rfl
  · rw [hsplit2, String.data_append, List.reverse_append]
    rfl

/-- The application template renders its name argument verbatim after a
fixed prefix. -/
theorem applicationTemplate_decomp_name (n u : String) :
    applicationTemplate n u =
      "\x7b\x7bpage-title \"" ++ n ++ ("\"\x7d\x7d\n<DocsHeader @prefix=\"Droid\" @name=\"" ++ n ++
        "\" @githubUrl=\"" ++ u ++ "\" />\n\x7b\x7boutlet\x7d\x7d") := by
  rw [applicationTemplate_decomp_repo]
  simp [String.append_assoc]

/-- A string holds any middle part of an explicit concatenation. -/
theorem strContains_appended (A B v : String) : strContains (A ++ v ++ B) v = true := by
  simp only [strContains]
  apply decide_eq_true
  exact ⟨A.data, B.data, by simp [String.data_append]⟩

/-- After createDocsIndex the remaining tail of a src/lib/setupDoc.js run
(createIndexLayout, which crashes) leaves the state unchanged. -/
theorem Lib.finalSt_tail (x : Except St St) :
    finalSt (match x with
      | Except.error st => Except.error st
      | Except.ok st => Lib.createIndexLayout st) = finalSt x := by
  cases x <;> rfl

theorem Lib.createDocsIndex_events_mono (r a : String) (st : St) (e : Event)
    (h : e ∈ st.events) : e ∈ (finalSt (Lib.createDocsIndex r a st)).events := by
  cases hf : st.fs.files (a ++ "/README.md") with
  | some C =>
    rw [Lib.createDocsIndex_copy r a st C hf]
    simp [h]
  | none =>
    cases hd : st.fs.dirs (a ++ "/README.md")
    · rw [Lib.createDocsIndex_placeholder r a st hf hd]
      simp [h]
    · rw [Lib.createDocsIndex_crash r a st hf hd]
      simp [h]

/-- Final state of a src/lib/setupDoc.js run with a loaded manifest, seen
through the docs-index step. -/
theorem Lib.setupDoc_finalSt (parse : String → Option Manifest) (initCwd : String)
    (fs : FS) (c : String) (m : Manifest)
    (h1 : fs.files (jsDirname initCwd ++ "/addon/package.json") = some c)
    (h2 : parse c = some m) :
    finalSt (Lib.setupDoc parse initCwd (St.init fs)) =
      finalSt (Lib.createDocsIndex initCwd (pathJoin (jsDirname initCwd) "addon")
        (Lib.updateApplicationTemplate initCwd (m.lookup "name") (m.lookup "repository")
          (Lib.updateRouter initCwd
            (((St.init fs).info "addon root / test-app root").info
              ("Setting up ember-cli-addon-docs for " ++ jsInterp (m.lookup "name") ++ "..."))))) := by
  rw [Lib.setupDoc_after_manifest parse initCwd fs c m h1 h2]
  exact Lib.finalSt_tail _

/-- C3: once the manifest loads, src/lib/setupDoc.js always writes
application.hbs under the consumer root with the source interpolation of
the manifest name and repository fields: both field renderings appear
verbatim between fixed template pieces, an absent field renders as the
text undefined, and at the spec instance values no interpolation token
remains. -/
theorem claim3_application_template_unconditional
    (parse : String → Option Manifest) (initCwd : String) (fs : FS) (c : String) (m : Manifest)
    (h1 : fs.files (jsDirname initCwd ++ "/addon/package.json") = some c)
    (h2 : parse c = some m) :
    ((finalSt (Lib.setupDoc parse initCwd (St.init fs))).fs.files
        (initCwd ++ "/app/templates/application.hbs") =
      some (applicationTemplate (jsInterp (m.lookup "name")) (jsInterp (m.lookup "repository"))))
    ∧ (∃ b, Event.write (initCwd ++ "/app/templates/application.hbs")
        (applicationTemplate (jsInterp (m.lookup "name")) (jsInterp (m.lookup "repository"))) b ∈
        (finalSt (Lib.setupDoc parse initCwd (St.init fs))).events)
    ∧ (∃ p s, applicationTemplate (jsInterp (m.lookup "name")) (jsInterp (m.lookup "repository")) =
        p ++ jsInterp (m.lookup "name") ++ s)
    ∧ (∃ p s, applicationTemplate (jsInterp (m.lookup "name")) (jsInterp (m.lookup "repository")) =
        p ++ jsInterp (m.lookup "repository") ++ s)
    ∧ (m.lookup "repository" = none →
        strContains (applicationTemplate (jsInterp (m.lookup "name"))
          (jsInterp (m.lookup "repository"))) "undefined" = true)
    ∧ (m.lookup "name" = some "Foo" → m.lookup "repository" = some "https://x" →
        strContains (applicationTemplate (jsInterp (m.lookup "name"))
            (jsInterp (m.lookup "repository"))) "Foo" = true
        ∧ strContains (applicationTemplate (jsInterp (m.lookup "name"))
            (jsInterp (m.lookup "repository"))) "https://x" = true
        ∧ strContains (applicationTemplate (jsInterp (m.lookup "name"))
            (jsInterp (m.lookup "repository"))) "$\x7b" = false) := by
  have hne : (initCwd ++ "/app/templates/application.hbs") ≠
      (initCwd ++ "/app/templates/docs/index.md") :=
    append_ne_append _ _ _ _ (by decide) (by decide)
  refine ⟨?_, ?_, ?_, ?_, ?_, ?_⟩
  · rw [Lib.setupDoc_finalSt parse initCwd fs c m h1 h2,
      Lib.createDocsIndex_files _ _ _ _ hne, Lib.updateApplicationTemplate_eq]
    simp
  · rw [Lib.setupDoc_finalSt parse initCwd fs c m h1 h2]
    have hw : ∃ b, Event.write (initCwd ++ "/app/templates/application.hbs")
        (applicationTemplate (jsInterp (m.lookup "name")) (jsInterp (m.lookup "repository"))) b ∈
        (Lib.updateApplicationTemplate initCwd (m.lookup "name") (m.lookup "repository")
          (Lib.updateRouter initCwd
            (((St.init fs).info "addon root / test-app root").info
              ("Setting up ember-cli-addon-docs for " ++ jsInterp (m.lookup "name") ++ "...")))).events := by
      rw [Lib.updateApplicationTemplate_eq]
      simp only [St.events_info, St.events_write, St.events_ensureDir]
      exact ⟨_, List.mem_append_left _ (List.mem_append_right _ (List.mem_singleton_self _))⟩
    obtain ⟨b, hb⟩ := hw
    exact ⟨b, Lib.createDocsIndex_events_mono _ _ _ _ hb⟩
  · exact ⟨_, _, applicationTemplate_decomp_name _ _⟩
  · exact ⟨_, _, applicationTemplate_decomp_repo _ _⟩
  · intro hr
    rw [hr]
    rw [show jsInterp none = "undefined" from rfl, applicationTemplate_decomp_repo]
    exact strContains_appended _ _ _
  · intro hn hr
    rw [hn, hr]
    exact ⟨by decide, by decide, by decide⟩

/-- Closed witness for claim3: the hypotheses hold at the concrete demo
input, and the theorem then gives the written application.hbs content. -/
theorem claim3_witness :
    (fsDemo.files (jsDirname "/proj/test-app" ++ "/addon/package.json") = some "PKG"
      ∧ parseFoo "PKG" = some [("name", "Foo"), ("repository", "https://x")])
    ∧ (finalSt (Lib.setupDoc parseFoo "/proj/test-app" (St.init fsDemo))).fs.files
        ("/proj/test-app" ++ "/app/templates/application.hbs") =
      some (applicationTemplate
        (jsInterp (([("name", "Foo"), ("repository", "https://x")] : Manifest).lookup "name"))
        (jsInterp (([("name", "Foo"), ("repository", "https://x")] : Manifest).lookup "repository"))) :=
  ⟨⟨by decide, by decide⟩,
    (claim3_application_template_unconditional parseFoo "/proj/test-app" fsDemo "PKG"
      [("name", "Foo"), ("repository", "https://x")] (by decide) (by decide)).1⟩

/-- Final state of a src/lib/setupDoc.js run with an absent manifest, seen
through the docs-index step. -/
theorem Lib.setupDoc_finalSt_no_manifest (parse : String → Option Manifest) (initCwd : String)
    (fs : FS)
    (h1 : fs.files (jsDirname initCwd ++ "/addon/package.json") = none)
    (h2 : fs.dirs (jsDirname initCwd ++ "/addon/package.json") = false) :
    finalSt (Lib.setupDoc parse initCwd (St.init fs)) =
      finalSt (Lib.createDocsIndex initCwd (pathJoin (jsDirname initCwd) "addon")
        (Lib.updateApplicationTemplate initCwd none none
          (Lib.updateRouter initCwd
            ((((St.init fs).info "addon root / test-app root").warn
                "Could not find parent package.json").info
              ("Setting up ember-cli-addon-docs for " ++ jsInterp none ++ "..."))))) := by
  rw [Lib.setupDoc_after_no_manifest parse initCwd fs h1 h2]
  exact Lib.finalSt_tail _

theorem Lib.updateApplicationTemplate_events_mono (r : String) (n u : Option String) (st : St)
    (e : Event) (h : e ∈ st.events) :
    e ∈ (Lib.updateApplicationTemplate r n u st).events := by
  rw [Lib.updateApplicationTemplate_eq]
  simp [h]

theorem Lib.updateRouter_events_mono (r : String) (st : St) (e : Event) (h : e ∈ st.events) :
    e ∈ (Lib.updateRouter r st).events := by
  cases hex : st.fs.existsSync (r ++ "/app/router.js")
  · rw [Lib.updateRouter_absent r st hex]
    simp [h]
  · rw [Lib.updateRouter_present r st hex]
    simp [h]

/-- Behaviour of the reachable emitter tail of src/lib/setupDoc.js at the
docs index file when the README exists: the README content is copied
byte for byte. -/
theorem Lib.tail_docsIndex_copy (initCwd : String) (n u : Option String) (st0 : St) (C : String)
    (hrd : st0.fs.files (jsDirname initCwd ++ "/addon/README.md") = some C) :
    ((finalSt (Lib.createDocsIndex initCwd (pathJoin (jsDirname initCwd) "addon")
        (Lib.updateApplicationTemplate initCwd n u (Lib.updateRouter initCwd st0)))).fs.files
      (initCwd ++ "/app/templates/docs/index.md") = some C)
    ∧ (∃ b, Event.write (initCwd ++ "/app/templates/docs/index.md") C b ∈
      (finalSt (Lib.createDocsIndex initCwd (pathJoin (jsDirname initCwd) "addon")
        (Lib.updateApplicationTemplate initCwd n u (Lib.updateRouter initCwd st0)))).events) := by
  have hne1 : (jsDirname initCwd ++ "/addon/README.md") ≠
      (initCwd ++ "/app/templates/application.hbs") :=
    append_ne_append _ _ _ _ (by decide) (by decide)
  have hne2 : (jsDirname initCwd ++ "/addon/README.md") ≠ (initCwd ++ "/app/router.js") :=
    append_ne_append _ _ _ _ (by decide) (by decide)
  have hrd' : (Lib.updateApplicationTemplate initCwd n u
      (Lib.updateRouter initCwd st0)).fs.files
      (pathJoin (jsDirname initCwd) "addon" ++ "/README.md") = some C := by
    have : (Lib.updateApplicationTemplate initCwd n u
        (Lib.updateRouter initCwd st0)).fs.files
        (jsDirname initCwd ++ "/addon/README.md") = some C := by
      rw [Lib.updateApplicationTemplate_files _ _ _ _ _ hne1,
        Lib.updateRouter_files _ _ _ hne2]
      exact hrd
    simpa [String.append_assoc] using this
  rw [Lib.createDocsIndex_copy _ _ _ C hrd']
  constructor
  · simp
  · simp only [finalSt_ok, St.events_info, St.events_write, St.events_ensureDir]
    exact ⟨_, List.mem_append_left _ (List.mem_append_right _ (List.mem_singleton_self _))⟩

/-- C4: whenever the README exists with content C and the metadata stage
does not crash, src/lib/setupDoc.js writes docs/index.md with exactly C. -/
theorem claim4_docs_index_byte_identical
    (parse : String → Option Manifest) (initCwd : String) (fs : FS) (C : String)
    (hman : (fs.files (jsDirname initCwd ++ "/addon/package.json") = none
        ∧ fs.dirs (jsDirname initCwd ++ "/addon/package.json") = false)
      ∨ ∃ c m, fs.files (jsDirname initCwd ++ "/addon/package.json") = some c ∧ parse c = some m)
    (hrd : fs.files (jsDirname initCwd ++ "/addon/README.md") = some C) :
    ((finalSt (Lib.setupDoc parse initCwd (St.init fs))).fs.files
        (initCwd ++ "/app/templates/docs/index.md") = some C)
    ∧ (∃ b, Event.write (initCwd ++ "/app/templates/docs/index.md") C b ∈
        (finalSt (Lib.setupDoc parse initCwd (St.init fs))).events) := by
  rcases hman with ⟨h1, h2⟩ | ⟨c, m, h1, h2⟩
  · rw [Lib.setupDoc_finalSt_no_manifest parse initCwd fs h1 h2]
    exact Lib.tail_docsIndex_copy initCwd none none _ C hrd
  · rw [Lib.setupDoc_finalSt parse initCwd fs c m h1 h2]
    exact Lib.tail_docsIndex_copy initCwd (m.lookup "name") (m.lookup "repository") _ C hrd

/-- Closed witness for claim4 at the concrete demo input. -/
theorem claim4_witness :
    ((fsDemo.files (jsDirname "/proj/test-app" ++ "/addon/package.json") = some "PKG"
        ∧ parseFoo "PKG" = some [("name", "Foo"), ("repository", "https://x")])
      ∧ fsDemo.files (jsDirname "/proj/test-app" ++ "/addon/README.md") = some "my readme")
    ∧ (finalSt (Lib.setupDoc parseFoo "/proj/test-app" (St.init fsDemo))).fs.files
        ("/proj/test-app" ++ "/app/templates/docs/index.md") = some "my readme" :=
  ⟨⟨⟨by decide, by decide⟩, by decide⟩,
    (claim4_docs_index_byte_identical parseFoo "/proj/test-app" fsDemo "my readme"
      (Or.inr ⟨"PKG", [("name", "Foo"), ("repository", "https://x")], by decide, by decide⟩)
      (by decide)).1⟩

/-- Behaviour of the reachable emitter tail of src/lib/setupDoc.js at the
docs index file when the README is absent: a fixed placeholder is written
and a warning logged. -/
theorem Lib.tail_docsIndex_placeholder (initCwd : String) (n u : Option String) (st0 : St)
    (h1 : st0.fs.files (jsDirname initCwd ++ "/addon/README.md") = none)
    (h2 : st0.fs.dirs (jsDirname initCwd ++ "/addon/README.md") = false) :
    ((finalSt (Lib.createDocsIndex initCwd (pathJoin (jsDirname initCwd) "addon")
        (Lib.updateApplicationTemplate initCwd n u (Lib.updateRouter initCwd st0)))).fs.files
      (initCwd ++ "/app/templates/docs/index.md") = some placeholderDocsIndex)
    ∧ (Event.warn "README.md not found, creating a placeholder index.md." ∈
      (finalSt (Lib.createDocsIndex initCwd (pathJoin (jsDirname initCwd) "addon")
        (Lib.updateApplicationTemplate initCwd n u (Lib.updateRouter initCwd st0)))).events)
    ∧ (∃ b, Event.write (initCwd ++ "/app/templates/docs/index.md") placeholderDocsIndex b ∈
      (finalSt (Lib.createDocsIndex initCwd (pathJoin (jsDirname initCwd) "addon")
        (Lib.updateApplicationTemplate initCwd n u (Lib.updateRouter initCwd st0)))).events) := by
  have hne1 : (jsDirname initCwd ++ "/addon/README.md") ≠
      (initCwd ++ "/app/templates/application.hbs") :=
    append_ne_append _ _ _ _ (by decide) (by decide)
  have hne2 : (jsDirname initCwd ++ "/addon/README.md") ≠ (initCwd ++ "/app/router.js") :=
    append_ne_append _ _ _ _ (by decide) (by decide)
  have hne3 : (jsDirname initCwd ++ "/addon/README.md") ≠ (initCwd ++ "/app/templates") :=
    append_ne_append _ _ _ _ (by decide) (by decide)
  have h1' : (Lib.updateApplicationTemplate initCwd n u
      (Lib.updateRouter initCwd st0)).fs.files
      (pathJoin (jsDirname initCwd) "addon" ++ "/README.md") = none := by
    have : (Lib.updateApplicationTemplate initCwd n u
        (Lib.updateRouter initCwd st0)).fs.files
        (jsDirname initCwd ++ "/addon/README.md") = none := by
      rw [Lib.updateApplicationTemplate_files _ _ _ _ _ hne1,
        Lib.updateRouter_files _ _ _ hne2]
      exact h1
    simpa [String.append_assoc] using this
  have h2' : (Lib.updateApplicationTemplate initCwd n u
      (Lib.updateRouter initCwd st0)).fs.dirs
      (pathJoin (jsDirname initCwd) "addon" ++ "/README.md") = false := by
    have : (Lib.updateApplicationTemplate initCwd n u
        (Lib.updateRouter initCwd st0)).fs.dirs
        (jsDirname initCwd ++ "/addon/README.md") = false := by
      rw [Lib.updateApplicationTemplate_dirs _ _ _ _ _ hne3,
        Lib.updateRouter_dirs]
      exact h2
    simpa [String.append_assoc] using this
  rw [Lib.createDocsIndex_placeholder _ _ _ h1' h2']
  refine ⟨by simp, ?_, ?_⟩
  · simp only [finalSt_ok, St.events_write, St.events_warn, St.events_ensureDir]
    exact List.mem_append_left _ (List.mem_append_right _ (List.mem_singleton_self _))
  · simp only [finalSt_ok, St.events_write, St.events_warn, St.events_ensureDir]
    exact ⟨_, List.mem_append_right _ (List.mem_singleton_self _)⟩

/-- C5: when the README is absent and the metadata stage does not crash,
src/lib/setupDoc.js does not fail: it writes the fixed placeholder to
docs/index.md and logs a warning. -/
theorem claim5_docs_index_placeholder
    (parse : String → Option Manifest) (initCwd : String) (fs : FS)
    (hman : (fs.files (jsDirname initCwd ++ "/addon/package.json") = none
        ∧ fs.dirs (jsDirname initCwd ++ "/addon/package.json") = false)
      ∨ ∃ c m, fs.files (jsDirname initCwd ++ "/addon/package.json") = some c ∧ parse c = some m)
    (h1 : fs.files (jsDirname initCwd ++ "/addon/README.md") = none)
    (h2 : fs.dirs (jsDirname initCwd ++ "/addon/README.md") = false) :
    ((finalSt (Lib.setupDoc parse initCwd (St.init fs))).fs.files
        (initCwd ++ "/app/templates/docs/index.md") = some placeholderDocsIndex)
    ∧ (Event.warn "README.md not found, creating a placeholder index.md." ∈
        (finalSt (Lib.setupDoc parse initCwd (St.init fs))).events)
    ∧ (∃ b, Event.write (initCwd ++ "/app/templates/docs/index.md") placeholderDocsIndex b ∈
        (finalSt (Lib.setupDoc parse initCwd (St.init fs))).events) := by
  rcases hman with ⟨hp1, hp2⟩ | ⟨c, m, hp1, hp2⟩
  · rw [Lib.setupDoc_finalSt_no_manifest parse initCwd fs hp1 hp2]
    exact Lib.tail_docsIndex_placeholder initCwd none none _ h1 h2
  · rw [Lib.setupDoc_finalSt parse initCwd fs c m hp1 hp2]
    exact Lib.tail_docsIndex_placeholder initCwd (m.lookup "name") (m.lookup "repository") _ h1 h2

/-- Closed witness for claim5 at the bare demo input. -/
theorem claim5_witness :
    ((fsBare.files (jsDirname "/proj/test-app" ++ "/addon/package.json") = some "PKG"
        ∧ parseFoo "PKG" = some [("name", "Foo"), ("repository", "https://x")])
      ∧ fsBare.files (jsDirname "/proj/test-app" ++ "/addon/README.md") = none
      ∧ fsBare.dirs (jsDirname "/proj/test-app" ++ "/addon/README.md") = false)
    ∧ (finalSt (Lib.setupDoc parseFoo "/proj/test-app" (St.init fsBare))).fs.files
        ("/proj/test-app" ++ "/app/templates/docs/index.md") = some placeholderDocsIndex :=
  ⟨⟨⟨by decide, by decide⟩, by decide, by decide⟩,
    (claim5_docs_index_placeholder parseFoo "/proj/test-app" fsBare
      (Or.inr ⟨"PKG", [("name", "Foo"), ("repository", "https://x")], by decide, by decide⟩)
      (by decide) (by decide)).1⟩

/-- Behaviour of the reachable emitter tail of src/lib/setupDoc.js at the
router file: skip plus warning when absent, fixed template overwrite when
present, in both cases regardless of the later докs-index branch. -/
theorem Lib.tail_router (initCwd : String) (n u : Option String) (st0 : St) :
    ((st0.fs.files (initCwd ++ "/app/router.js") = none
        ∧ st0.fs.dirs (initCwd ++ "/app/router.js") = false) →
      (finalSt (Lib.createDocsIndex initCwd (pathJoin (jsDirname initCwd) "addon")
        (Lib.updateApplicationTemplate initCwd n u (Lib.updateRouter initCwd st0)))).fs.files
        (initCwd ++ "/app/router.js") = none
      ∧ Event.warn "router.js not found, skipping router setup." ∈
        (finalSt (Lib.createDocsIndex initCwd (pathJoin (jsDirname initCwd) "addon")
          (Lib.updateApplicationTemplate initCwd n u (Lib.updateRouter initCwd st0)))).events)
    ∧ (∀ old, st0.fs.files (initCwd ++ "/app/router.js") = some old →
      (finalSt (Lib.createDocsIndex initCwd (pathJoin (jsDirname initCwd) "addon")
        (Lib.updateApplicationTemplate initCwd n u (Lib.updateRouter initCwd st0)))).fs.files
        (initCwd ++ "/app/router.js") = some routerContent) := by
  have hne1 : (initCwd ++ "/app/router.js") ≠ (initCwd ++ "/app/templates/docs/index.md") :=
    append_ne_append _ _ _ _ (by decide) (by decide)
  have hne2 : (initCwd ++ "/app/router.js") ≠ (initCwd ++ "/app/templates/application.hbs") :=
    append_ne_append _ _ _ _ (by decide) (by decide)
  constructor
  · rintro ⟨ha, hb⟩
    have hex : st0.fs.existsSync (initCwd ++ "/app/router.js") = false := by
      simp [FS.existsSync, ha, hb]
    constructor
    · rw [Lib.createDocsIndex_files _ _ _ _ hne1,
        Lib.updateApplicationTemplate_files _ _ _ _ _ hne2,
        Lib.updateRouter_absent _ _ hex]
      exact ha
    · refine Lib.createDocsIndex_events_mono _ _ _ _
        (Lib.updateApplicationTemplate_events_mono _ _ _ _ _ ?_)
      rw [Lib.updateRouter_absent _ _ hex]
      simp
  · intro old h
    have hex : st0.fs.existsSync (initCwd ++ "/app/router.js") = true := by
      simp [FS.existsSync, h]
    rw [Lib.createDocsIndex_files _ _ _ _ hne1,
      Lib.updateApplicationTemplate_files _ _ _ _ _ hne2,
      Lib.updateRouter_present _ _ hex]
    simp

/-- C6: when app/router.js does not pre-exist, no file is created there
and a warning is logged; when it pre-exists with arbitrary content, after
the run its content is exactly the fixed router template; both under the
hypothesis that the metadata stage does not crash (a malformed manifest
aborts the run before the router emitter). -/
theorem claim6_router
    (parse : String → Option Manifest) (initCwd : String) (fs : FS)
    (hman : (fs.files (jsDirname initCwd ++ "/addon/package.json") = none
        ∧ fs.dirs (jsDirname initCwd ++ "/addon/package.json") = false)
      ∨ ∃ c m, fs.files (jsDirname initCwd ++ "/addon/package.json") = some c ∧ parse c = some m) :
    ((fs.files (initCwd ++ "/app/router.js") = none
        ∧ fs.dirs (initCwd ++ "/app/router.js") = false) →
      (finalSt (Lib.setupDoc parse initCwd (St.init fs))).fs.files
        (initCwd ++ "/app/router.js") = none
      ∧ Event.warn "router.js not found, skipping router setup." ∈
        (finalSt (Lib.setupDoc parse initCwd (St.init fs))).events)
    ∧ (∀ old, fs.files (initCwd ++ "/app/router.js") = some old →
      (finalSt (Lib.setupDoc parse initCwd (St.init fs))).fs.files
        (initCwd ++ "/app/router.js") = some routerContent) := by
  rcases hman with ⟨hp1, hp2⟩ | ⟨c, m, hp1, hp2⟩
  · rw [Lib.setupDoc_finalSt_no_manifest parse initCwd fs hp1 hp2]
    exact Lib.tail_router initCwd none none
      ((((St.init fs).info "addon root / test-app root").warn
          "Could not find parent package.json").info
        ("Setting up ember-cli-addon-docs for " ++ jsInterp none ++ "..."))
  · rw [Lib.setupDoc_finalSt parse initCwd fs c m hp1 hp2]
    exact Lib.tail_router initCwd (m.lookup "name") (m.lookup "repository")
      (((St.init fs).info "addon root / test-app root").info
        ("Setting up ember-cli-addon-docs for " ++ jsInterp (m.lookup "name") ++ "..."))

/-- Closed witness for claim6: both faces, at a bare input without the
router file and at the demo input with one. -/
theorem claim6_witness :
    ((fsBare.files (jsDirname "/proj/test-app" ++ "/addon/package.json") = some "PKG"
        ∧ fsBare.files ("/proj/test-app" ++ "/app/router.js") = none
        ∧ fsBare.dirs ("/proj/test-app" ++ "/app/router.js") = false)
      ∧ fsDemo.files ("/proj/test-app" ++ "/app/router.js") = some "old router")
    ∧ ((finalSt (Lib.setupDoc parseFoo "/proj/test-app" (St.init fsBare))).fs.files
        ("/proj/test-app" ++ "/app/router.js") = none
      ∧ Event.warn "router.js not found, skipping router setup." ∈
        (finalSt (Lib.setupDoc parseFoo "/proj/test-app" (St.init fsBare))).events)
    ∧ (finalSt (Lib.setupDoc parseFoo "/proj/test-app" (St.init fsDemo))).fs.files
        ("/proj/test-app" ++ "/app/router.js") = some routerContent :=
  ⟨⟨⟨by decide, by decide, by decide⟩, by decide⟩,
    (claim6_router parseFoo "/proj/test-app" fsBare
      (Or.inr ⟨"PKG", [("name", "Foo"), ("repository", "https://x")], by decide, by decide⟩)).1
      ⟨by decide, by decide⟩,
    (claim6_router parseFoo "/proj/test-app" fsDemo
      (Or.inr ⟨"PKG", [("name", "Foo"), ("repository", "https://x")], by decide, by decide⟩)).2
      "old router" (by decide)⟩

theorem allWritesParented_append (es1 es2 : List Event) :
    allWritesParented (es1 ++ es2) = (allWritesParented es1 && allWritesParented es2) := by
  simp [allWritesParented, List.all_append]

theorem allWritesParented_singleton (e : Event) :
    allWritesParented [e] = Event.parentOk e := by
  simp [allWritesParented]

theorem Event.parentOk_warn (m : String) : Event.parentOk (Event.warn m) = true := rfl

theorem Event.parentOk_info (m : String) : Event.parentOk (Event.info m) = true := rfl

theorem Event.parentOk_write (p c : String) (b : Bool) :
    Event.parentOk (Event.write p c b) = b := rfl

/-- C7 counterexample: when a regular file occupies
consumerRoot/app/templates, ensureDir sees the path as existing, skips
mkdir, and the application.hbs write is attempted without its parent
directory existing, refuting the claim as stated. -/
theorem claim7_counterexample :
    allWritesParented
      (finalSt (Lib.setupDoc parseFoo "/proj/test-app" (St.init fsBlocked))).events = false
    ∧ Event.write "/proj/test-app/app/templates/application.hbs"
        (applicationTemplate "Foo" "https://x") false ∈
      (finalSt (Lib.setupDoc parseFoo "/proj/test-app" (St.init fsBlocked))).events := by
  decide

/-- Behaviour of the reachable emitter tail of src/lib/setupDoc.js for the
parent-directory flags: every write finds its parent in place, provided no
regular file blocks an ensured directory path and the router parent
directory exists whenever the router file does. -/
theorem Lib.tail_allWritesParented (initCwd : String) (n u : Option String) (st0 : St)
    (hall : allWritesParented st0.events = true)
    (h1 : st0.fs.existsSync (initCwd ++ "/app/router.js") = true →
      st0.fs.dirs (initCwd ++ "/app") = true)
    (h2 : st0.fs.files (initCwd ++ "/app/templates") = none)
    (h3 : st0.fs.files (initCwd ++ "/app/templates/docs") = none) :
    allWritesParented
      (finalSt (Lib.createDocsIndex initCwd (pathJoin (jsDirname initCwd) "addon")
        (Lib.updateApplicationTemplate initCwd n u
          (Lib.updateRouter initCwd st0)))).events = true := by
  have hneRT : (initCwd ++ "/app/templates") ≠ (initCwd ++ "/app/router.js") :=
    append_ne_append _ _ _ _ (by decide) (by decide)
  have hneDR : (initCwd ++ "/app/templates/docs") ≠ (initCwd ++ "/app/router.js") :=
    append_ne_append _ _ _ _ (by decide) (by decide)
  have hneDA : (initCwd ++ "/app/templates/docs") ≠ (initCwd ++ "/app/templates/application.hbs") :=
    append_ne_append _ _ _ _ (by decide) (by decide)
  have hallR : allWritesParented (Lib.updateRouter initCwd st0).events = true := by
    cases hex : st0.fs.existsSync (initCwd ++ "/app/router.js")
    · rw [Lib.updateRouter_absent _ _ hex, St.events_warn, allWritesParented_append,
        allWritesParented_singleton, Event.parentOk_warn, hall]
      rfl
    · rw [Lib.updateRouter_present _ _ hex, St.events_info, St.events_write,
        allWritesParented_append, allWritesParented_append, allWritesParented_singleton,
        allWritesParented_singleton, Event.parentOk_info, jsDirname_libRouter,
        Event.parentOk_write, h1 hex, hall]
      rfl
  have hfilesR2 : (Lib.updateRouter initCwd st0).fs.files (initCwd ++ "/app/templates") = none := by
    rw [Lib.updateRouter_files _ _ _ hneRT]
    exact h2
  have hfilesR3 : (Lib.updateRouter initCwd st0).fs.files
      (initCwd ++ "/app/templates/docs") = none := by
    rw [Lib.updateRouter_files _ _ _ hneDR]
    exact h3
  have hallA : allWritesParented
      (Lib.updateApplicationTemplate initCwd n u (Lib.updateRouter initCwd st0)).events = true := by
    rw [Lib.updateApplicationTemplate_eq, St.events_info, St.events_write, St.events_ensureDir,
      St.fs_ensureDir, jsDirname_libAppTmpl, allWritesParented_append, allWritesParented_append,
      allWritesParented_singleton, allWritesParented_singleton, Event.parentOk_info,
      Event.parentOk_write, FS.dirs_ensureDir_self_of_no_file _ _ hfilesR2, hallR]
    rfl
  have hfilesA3 : (Lib.updateApplicationTemplate initCwd n u
      (Lib.updateRouter initCwd st0)).fs.files (initCwd ++ "/app/templates/docs") = none := by
    rw [Lib.updateApplicationTemplate_files _ _ _ _ _ hneDA]
    exact hfilesR3
  cases hf : (Lib.updateApplicationTemplate initCwd n u
      (Lib.updateRouter initCwd st0)).fs.files
      (pathJoin (jsDirname initCwd) "addon" ++ "/README.md") with
  | some C =>
    rw [Lib.createDocsIndex_copy _ _ _ C hf, finalSt_ok, St.events_info, St.events_write,
      St.events_ensureDir, St.fs_ensureDir, jsDirname_libDocsFile, allWritesParented_append,
      allWritesParented_append, allWritesParented_singleton, allWritesParented_singleton,
      Event.parentOk_info, Event.parentOk_write,
      FS.dirs_ensureDir_self_of_no_file _ _ hfilesA3, hallA]
    rfl
  | none =>
    cases hd : (Lib.updateApplicationTemplate initCwd n u
        (Lib.updateRouter initCwd st0)).fs.dirs
        (pathJoin (jsDirname initCwd) "addon" ++ "/README.md")
    · rw [Lib.createDocsIndex_placeholder _ _ _ hf hd, finalSt_ok, St.events_write,
        St.events_warn, St.events_ensureDir, St.fs_warn, St.fs_ensureDir, jsDirname_libDocsFile,
        allWritesParented_append, allWritesParented_append, allWritesParented_singleton,
        allWritesParented_singleton, Event.parentOk_warn, Event.parentOk_write,
        FS.dirs_ensureDir_self_of_no_file _ _ hfilesA3, hallA]
      rfl
    · rw [Lib.createDocsIndex_crash _ _ _ hf hd, finalSt_error, St.events_ensureDir, hallA]

/-- C7 amended: every write of a src/lib/setupDoc.js run finds its parent
directory in place, provided no regular file occupies the two ensured
directory paths (app/templates and app/templates/docs) and the router
parent directory exists whenever the router path is occupied; the script
ensures the rest by creating the directories (ensureDir) or, for the
router, by writing only when the file already exists. -/
theorem claim7_amended (parse : String → Option Manifest) (initCwd : String) (fs : FS)
    (h1 : fs.existsSync (initCwd ++ "/app/router.js") = true →
      fs.dirs (initCwd ++ "/app") = true)
    (h2 : fs.files (initCwd ++ "/app/templates") = none)
    (h3 : fs.files (initCwd ++ "/app/templates/docs") = none) :
    allWritesParented (finalSt (Lib.setupDoc parse initCwd (St.init fs))).events = true := by
  cases hp : fs.files (jsDirname initCwd ++ "/addon/package.json") with
  | some c =>
    cases hm : parse c with
    | some m =>
      rw [Lib.setupDoc_finalSt parse initCwd fs c m hp hm]
      exact Lib.tail_allWritesParented initCwd (m.lookup "name") (m.lookup "repository")
        (((St.init fs).info "addon root / test-app root").info
          ("Setting up ember-cli-addon-docs for " ++ jsInterp (m.lookup "name") ++ "..."))
        (by rfl) h1 h2 h3
    | none =>
      have heq : Lib.setupDoc parse initCwd (St.init fs) =
          Except.error ((St.init fs).info "addon root / test-app root") := by
        simp only [Lib.setupDoc]
        rw [Lib.getParentPackageInfo_badJson parse _ _ c
          (by simpa [String.append_assoc] using hp) hm]
      rw [heq]
      rfl
  | none =>
    cases hd : fs.dirs (jsDirname initCwd ++ "/addon/package.json")
    · rw [Lib.setupDoc_finalSt_no_manifest parse initCwd fs hp hd]
      exact Lib.tail_allWritesParented initCwd none none
        ((((St.init fs).info "addon root / test-app root").warn
            "Could not find parent package.json").info
          ("Setting up ember-cli-addon-docs for " ++ jsInterp none ++ "..."))
        (by rfl) h1 h2 h3
    · have heq : Lib.setupDoc parse initCwd (St.init fs) =
          Except.error ((St.init fs).info "addon root / test-app root") := by
        simp only [Lib.setupDoc]
        rw [Lib.getParentPackageInfo_dirCrash parse _ _
          (by simpa [String.append_assoc] using hp) (by simpa [String.append_assoc] using hd)]
      rw [heq]
      rfl

/-- Closed witness for the amended claim7 at the demo input. -/
theorem claim7_amended_witness :
    ((fsDemo.existsSync ("/proj/test-app" ++ "/app/router.js") = true →
        fsDemo.dirs ("/proj/test-app" ++ "/app") = true)
      ∧ fsDemo.files ("/proj/test-app" ++ "/app/templates") = none
      ∧ fsDemo.files ("/proj/test-app" ++ "/app/templates/docs") = none)
    ∧ allWritesParented
        (finalSt (Lib.setupDoc parseFoo "/proj/test-app" (St.init fsDemo))).events = true :=
  ⟨⟨by decide, by decide, by decide⟩,
    claim7_amended parseFoo "/proj/test-app" fsDemo (by decide) (by decide) (by decide)⟩

/-- Frame of the reachable emitter tail of src/lib/setupDoc.js: any path
other than the three write targets keeps its file content. -/
theorem Lib.tail_frame (initCwd : String) (n u : Option String) (st0 : St) (q : String)
    (hq1 : q ≠ initCwd ++ "/app/router.js")
    (hq2 : q ≠ initCwd ++ "/app/templates/application.hbs")
    (hq3 : q ≠ initCwd ++ "/app/templates/docs/index.md") :
    (finalSt (Lib.createDocsIndex initCwd (pathJoin (jsDirname initCwd) "addon")
      (Lib.updateApplicationTemplate initCwd n u
        (Lib.updateRouter initCwd st0)))).fs.files q = st0.fs.files q := by
  rw [Lib.createDocsIndex_files _ _ _ _ hq3,
    Lib.updateApplicationTemplate_files _ _ _ _ _ hq2,
    Lib.updateRouter_files _ _ _ hq1]

/-- Origin of write events in the reachable emitter tail: every write hits
one of the three target paths or was already in the trace. -/
theorem Lib.tail_writes (initCwd : String) (n u : Option String) (st0 : St)
    (p c : String) (b : Bool)
    (h : Event.write p c b ∈ (finalSt (Lib.createDocsIndex initCwd
      (pathJoin (jsDirname initCwd) "addon")
      (Lib.updateApplicationTemplate initCwd n u
        (Lib.updateRouter initCwd st0)))).events) :
    Event.write p c b ∈ st0.events ∨ p = initCwd ++ "/app/router.js"
      ∨ p = initCwd ++ "/app/templates/application.hbs"
      ∨ p = initCwd ++ "/app/templates/docs/index.md" := by
  rcases Lib.createDocsIndex_writes _ _ _ _ _ _ h with h1 | h1
  · rcases Lib.updateApplicationTemplate_writes _ _ _ _ _ _ _ h1 with h2 | h2
    · rcases Lib.updateRouter_writes _ _ _ _ _ h2 with h3 | h3
      · exact Or.inl h3
      · exact Or.inr (Or.inl h3)
    · exact Or.inr (Or.inr (Or.inl h2))
  · exact Or.inr (Or.inr (Or.inr h1))

/-- C9: a src/lib/setupDoc.js run never writes its input files: the
manifest and the README contents are the same before and after any run,
and every write event targets a path distinct from both. -/
theorem claim9_inputs_only_read (parse : String → Option Manifest) (initCwd : String) (fs : FS) :
    ((finalSt (Lib.setupDoc parse initCwd (St.init fs))).fs.files
        (jsDirname initCwd ++ "/addon/package.json") =
      fs.files (jsDirname initCwd ++ "/addon/package.json"))
    ∧ ((finalSt (Lib.setupDoc parse initCwd (St.init fs))).fs.files
        (jsDirname initCwd ++ "/addon/README.md") =
      fs.files (jsDirname initCwd ++ "/addon/README.md"))
    ∧ (∀ p c b, Event.write p c b ∈ (finalSt (Lib.setupDoc parse initCwd (St.init fs))).events →
        p ≠ jsDirname initCwd ++ "/addon/package.json"
        ∧ p ≠ jsDirname initCwd ++ "/addon/README.md") := by
  have keyP : ∀ p, (p = initCwd ++ "/app/router.js"
      ∨ p = initCwd ++ "/app/templates/application.hbs"
      ∨ p = initCwd ++ "/app/templates/docs/index.md") →
      p ≠ jsDirname initCwd ++ "/addon/package.json"
      ∧ p ≠ jsDirname initCwd ++ "/addon/README.md" := by
    rintro p (rfl | rfl | rfl)
    · exact ⟨append_ne_append _ _ _ _ (by decide) (by decide),
        append_ne_append _ _ _ _ (by decide) (by decide)⟩
    · exact ⟨append_ne_append _ _ _ _ (by decide) (by decide),
        append_ne_append _ _ _ _ (by decide) (by decide)⟩
    · exact ⟨append_ne_append _ _ _ _ (by decide) (by decide),
        append_ne_append _ _ _ _ (by decide) (by decide)⟩
  have hne1 : (jsDirname initCwd ++ "/addon/package.json") ≠ (initCwd ++ "/app/router.js") :=
    append_ne_append _ _ _ _ (by decide) (by decide)
  have hne2 : (jsDirname initCwd ++ "/addon/package.json") ≠
      (initCwd ++ "/app/templates/application.hbs") :=
    append_ne_append _ _ _ _ (by decide) (by decide)
  have hne3 : (jsDirname initCwd ++ "/addon/package.json") ≠
      (initCwd ++ "/app/templates/docs/index.md") :=
    append_ne_append _ _ _ _ (by decide) (by decide)
  have hne4 : (jsDirname initCwd ++ "/addon/README.md") ≠ (initCwd ++ "/app/router.js") :=
    append_ne_append _ _ _ _ (by decide) (by decide)
  have hne5 : (jsDirname initCwd ++ "/addon/README.md") ≠
      (initCwd ++ "/app/templates/application.hbs") :=
    append_ne_append _ _ _ _ (by decide) (by decide)
  have hne6 : (jsDirname initCwd ++ "/addon/README.md") ≠
      (initCwd ++ "/app/templates/docs/index.md") :=
    append_ne_append _ _ _ _ (by decide) (by decide)
  cases hp : fs.files (jsDirname initCwd ++ "/addon/package.json") with
  | some c =>
    cases hm : parse c with
    | some m =>
      rw [Lib.setupDoc_finalSt parse initCwd fs c m hp hm]
      refine ⟨?_, ?_, ?_⟩
      · rw [Lib.tail_frame initCwd _ _ _ _ hne1 hne2 hne3]
        exact hp
      · exact Lib.tail_frame initCwd _ _ _ _ hne4 hne5 hne6
      · intro p c' b hw
        rcases Lib.tail_writes initCwd _ _ _ p c' b hw with h0 | h0
        · simp at h0
        · exact keyP p h0
    | none =>
      have heq : Lib.setupDoc parse initCwd (St.init fs) =
          Except.error ((St.init fs).info "addon root / test-app root") := by
        simp only [Lib.setupDoc]
        rw [Lib.getParentPackageInfo_badJson parse _ _ c
          (by simpa [String.append_assoc] using hp) hm]
      rw [heq]
      refine ⟨?_, ?_, ?_⟩
      · exact hp
      · rfl
      · intro p c' b hw
        simp [finalSt] at hw
  | none =>
    cases hd : fs.dirs (jsDirname initCwd ++ "/addon/package.json")
    · rw [Lib.setupDoc_finalSt_no_manifest parse initCwd fs hp hd]
      refine ⟨?_, ?_, ?_⟩
      · rw [Lib.tail_frame initCwd _ _ _ _ hne1 hne2 hne3]
        exact hp
      · exact Lib.tail_frame initCwd _ _ _ _ hne4 hne5 hne6
      · intro p c' b hw
        rcases Lib.tail_writes initCwd _ _ _ p c' b hw with h0 | h0
        · simp at h0
        · exact keyP p h0
    · have heq : Lib.setupDoc parse initCwd (St.init fs) =
          Except.error ((St.init fs).info "addon root / test-app root") := by
        simp only [Lib.setupDoc]
        rw [Lib.getParentPackageInfo_dirCrash parse _ _
          (by simpa [String.append_assoc] using hp) (by simpa [String.append_assoc] using hd)]
      rw [heq]
      refine ⟨?_, ?_, ?_⟩
      · exact hp
      · rfl
      · intro p c' b hw
        simp [finalSt] at hw

theorem writeEvents_append (es1 es2 : List Event) :
    writeEvents (es1 ++ es2) = writeEvents es1 ++ writeEvents es2 := by
  simp [writeEvents, List.filter_append]

theorem writeEvents_write (p c : String) (b : Bool) :
    writeEvents [Event.write p c b] = [Event.write p c b] := rfl

theorem writeEvents_info (m : String) : writeEvents [Event.info m] = [] := rfl

theorem writeEvents_warn (m : String) : writeEvents [Event.warn m] = [] := rfl

theorem FS.dirs_ensureDir_self (fs : FS) (d : String) :
    (fs.ensureDir d).dirs d = (if fs.existsSync d = true then fs.dirs d else true) := by
  unfold FS.ensureDir
  split <;> simp [FS.mkdirSync]

/-- Write events of the reachable emitter tail of src/lib/setupDoc.js as a
function of the starting state: optional router overwrite, unconditional
application template write, then the docs-index branch. -/
theorem Lib.tail_writeEvents_spec (initCwd : String) (n u : Option String) (st0 : St) :
    writeEvents (finalSt (Lib.createDocsIndex initCwd (pathJoin (jsDirname initCwd) "addon")
      (Lib.updateApplicationTemplate initCwd n u (Lib.updateRouter initCwd st0)))).events =
    writeEvents st0.events
      ++ (if st0.fs.existsSync (initCwd ++ "/app/router.js") = true then
            [Event.write (initCwd ++ "/app/router.js") routerContent
              (st0.fs.dirs (initCwd ++ "/app"))]
          else [])
      ++ [Event.write (initCwd ++ "/app/templates/application.hbs")
            (applicationTemplate (jsInterp n) (jsInterp u))
            (if st0.fs.existsSync (initCwd ++ "/app/templates") = true then
              st0.fs.dirs (initCwd ++ "/app/templates") else true)]
      ++ (match st0.fs.files (jsDirname initCwd ++ "/addon/README.md"),
            st0.fs.dirs (jsDirname initCwd ++ "/addon/README.md") with
          | some C, _ => [Event.write (initCwd ++ "/app/templates/docs/index.md") C
              (if st0.fs.existsSync (initCwd ++ "/app/templates/docs") = true then
                st0.fs.dirs (initCwd ++ "/app/templates/docs") else true)]
          | none, false => [Event.write (initCwd ++ "/app/templates/docs/index.md")
              placeholderDocsIndex
              (if st0.fs.existsSync (initCwd ++ "/app/templates/docs") = true then
                st0.fs.dirs (initCwd ++ "/app/templates/docs") else true)]
          | none, true => []) := by
  have hneRT : (initCwd ++ "/app/templates") ≠ (initCwd ++ "/app/router.js") :=
    append_ne_append _ _ _ _ (by decide) (by decide)
  have hneDR : (initCwd ++ "/app/templates/docs") ≠ (initCwd ++ "/app/router.js") :=
    append_ne_append _ _ _ _ (by decide) (by decide)
  have hneDA : (initCwd ++ "/app/templates/docs") ≠ (initCwd ++ "/app/templates/application.hbs") :=
    append_ne_append _ _ _ _ (by decide) (by decide)
  have hneDT : (initCwd ++ "/app/templates/docs") ≠ (initCwd ++ "/app/templates") :=
    append_ne_append _ _ _ _ (by decide) (by decide)
  have hneReR : (jsDirname initCwd ++ "/addon/README.md") ≠ (initCwd ++ "/app/router.js") :=
    append_ne_append _ _ _ _ (by decide) (by decide)
  have hneReA : (jsDirname initCwd ++ "/addon/README.md") ≠
      (initCwd ++ "/app/templates/application.hbs") :=
    append_ne_append _ _ _ _ (by decide) (by decide)
  have hneReT : (jsDirname initCwd ++ "/addon/README.md") ≠ (initCwd ++ "/app/templates") :=
    append_ne_append _ _ _ _ (by decide) (by decide)
  -- stage abbreviation facts
  have hRev : writeEvents (Lib.updateRouter initCwd st0).events =
      writeEvents st0.events
      ++ (if st0.fs.existsSync (initCwd ++ "/app/router.js") = true then
            [Event.write (initCwd ++ "/app/router.js") routerContent
              (st0.fs.dirs (initCwd ++ "/app"))]
          else []) := by
    cases hex2 : st0.fs.existsSync (initCwd ++ "/app/router.js")
    · rw [Lib.updateRouter_absent _ _ hex2, St.events_warn, writeEvents_append,
        writeEvents_warn]
      simp
    · rw [Lib.updateRouter_present _ _ hex2, St.events_info, St.events_write,
        writeEvents_append, writeEvents_append, writeEvents_info, writeEvents_write,
        jsDirname_libRouter]
      simp
  have hRfiles : ∀ q, q ≠ initCwd ++ "/app/router.js" →
      (Lib.updateRouter initCwd st0).fs.files q = st0.fs.files q :=
    fun q hq => Lib.updateRouter_files _ _ _ hq
  have hRdirs : (Lib.updateRouter initCwd st0).fs.dirs = st0.fs.dirs :=
    Lib.updateRouter_dirs _ _
  -- application stage
  have hAev : writeEvents (Lib.updateApplicationTemplate initCwd n u
      (Lib.updateRouter initCwd st0)).events =
      writeEvents st0.events
      ++ (if st0.fs.existsSync (initCwd ++ "/app/router.js") = true then
            [Event.write (initCwd ++ "/app/router.js") routerContent
              (st0.fs.dirs (initCwd ++ "/app"))]
          else [])
      ++ [Event.write (initCwd ++ "/app/templates/application.hbs")
            (applicationTemplate (jsInterp n) (jsInterp u))
            (if st0.fs.existsSync (initCwd ++ "/app/templates") = true then
              st0.fs.dirs (initCwd ++ "/app/templates") else true)] := by
    rw [Lib.updateApplicationTemplate_eq, St.events_info, St.events_write, St.events_ensureDir,
      St.fs_ensureDir, jsDirname_libAppTmpl, writeEvents_append, writeEvents_append,
      writeEvents_info, writeEvents_write, FS.dirs_ensureDir_self]
    rw [show (Lib.updateRouter initCwd st0).fs.existsSync (initCwd ++ "/app/templates") =
        st0.fs.existsSync (initCwd ++ "/app/templates") from by
      unfold FS.existsSync
      rw [hRfiles _ hneRT, hRdirs]]
    rw [show (Lib.updateRouter initCwd st0).fs.dirs (initCwd ++ "/app/templates") =
        st0.fs.dirs (initCwd ++ "/app/templates") from by rw [hRdirs]]
    rw [hRev]
    simp
  have hAfiles : ∀ q, q ≠ initCwd ++ "/app/router.js" →
      q ≠ initCwd ++ "/app/templates/application.hbs" →
      (Lib.updateApplicationTemplate initCwd n u
        (Lib.updateRouter initCwd st0)).fs.files q = st0.fs.files q := by
    intro q hq1 hq2
    rw [Lib.updateApplicationTemplate_files _ _ _ _ _ hq2, hRfiles _ hq1]
  have hAdirs : ∀ q, q ≠ initCwd ++ "/app/templates" →
      (Lib.updateApplicationTemplate initCwd n u
        (Lib.updateRouter initCwd st0)).fs.dirs q = st0.fs.dirs q := by
    intro q hq
    rw [Lib.updateApplicationTemplate_dirs _ _ _ _ _ hq, hRdirs]
  have hex3 : (Lib.updateApplicationTemplate initCwd n u
      (Lib.updateRouter initCwd st0)).fs.existsSync (initCwd ++ "/app/templates/docs") =
      st0.fs.existsSync (initCwd ++ "/app/templates/docs") := by
    unfold FS.existsSync
    rw [hAfiles _ hneDR hneDA, hAdirs _ hneDT]
  have hrdf : (Lib.updateApplicationTemplate initCwd n u
      (Lib.updateRouter initCwd st0)).fs.files
      (pathJoin (jsDirname initCwd) "addon" ++ "/README.md") =
      st0.fs.files (jsDirname initCwd ++ "/addon/README.md") := by
    have := hAfiles _ hneReR hneReA
    simpa [String.append_assoc] using this
  have hrdd : (Lib.updateApplicationTemplate initCwd n u
      (Lib.updateRouter initCwd st0)).fs.dirs
      (pathJoin (jsDirname initCwd) "addon" ++ "/README.md") =
      st0.fs.dirs (jsDirname initCwd ++ "/addon/README.md") := by
    have := hAdirs _ hneReT
    simpa [String.append_assoc] using this
  -- docs stage
  cases hf : st0.fs.files (jsDirname initCwd ++ "/addon/README.md") with
  | some C =>
    rw [Lib.createDocsIndex_copy _ _ _ C (hrdf.trans hf), finalSt_ok, St.events_info,
      St.events_write, St.events_ensureDir, St.fs_ensureDir, jsDirname_libDocsFile,
      writeEvents_append, writeEvents_append, writeEvents_info, writeEvents_write,
      FS.dirs_ensureDir_self]
    rw [show (Lib.updateApplicationTemplate initCwd n u
        (Lib.updateRouter initCwd st0)).fs.existsSync (initCwd ++ "/app/templates/docs") =
        st0.fs.existsSync (initCwd ++ "/app/templates/docs") from hex3]
    rw [show (Lib.updateApplicationTemplate initCwd n u
        (Lib.updateRouter initCwd st0)).fs.dirs (initCwd ++ "/app/templates/docs") =
        st0.fs.dirs (initCwd ++ "/app/templates/docs") from hAdirs _ hneDT]
    rw [hAev]
    simp
  | none =>
    cases hd : st0.fs.dirs (jsDirname initCwd ++ "/addon/README.md")
    · rw [Lib.createDocsIndex_placeholder _ _ _ (hrdf.trans hf) (hrdd.trans hd), finalSt_ok,
        St.events_write, St.events_warn, St.events_ensureDir, St.fs_warn, St.fs_ensureDir,
        jsDirname_libDocsFile, writeEvents_append, writeEvents_append, writeEvents_warn,
        writeEvents_write, FS.dirs_ensureDir_self]
      rw [show (Lib.updateApplicationTemplate initCwd n u
          (Lib.updateRouter initCwd st0)).fs.existsSync (initCwd ++ "/app/templates/docs") =
          st0.fs.existsSync (initCwd ++ "/app/templates/docs") from hex3]
      rw [show (Lib.updateApplicationTemplate initCwd n u
          (Lib.updateRouter initCwd st0)).fs.dirs (initCwd ++ "/app/templates/docs") =
          st0.fs.dirs (initCwd ++ "/app/templates/docs") from hAdirs _ hneDT]
      rw [hAev]
      simp
    · rw [Lib.createDocsIndex_crash _ _ _ (hrdf.trans hf) (hrdd.trans hd), finalSt_error,
        St.events_ensureDir, hAev]
      simp

/-- C10: manifests agreeing on the name and repository fields produce the
same write events — the same paths with byte-identical contents,
application.hbs included; no other manifest field influences any emitted
file.  The two runs differ only in the stored manifest bytes. -/
theorem claim10_manifest_noninterference
    (parse : String → Option Manifest) (initCwd : String) (fs : FS)
    (c1 c2 : String) (m1 m2 : Manifest)
    (h1 : fs.files (jsDirname initCwd ++ "/addon/package.json") = some c1)
    (hp1 : parse c1 = some m1) (hp2 : parse c2 = some m2)
    (hn : m1.lookup "name" = m2.lookup "name")
    (hr : m1.lookup "repository" = m2.lookup "repository") :
    writeEvents (finalSt (Lib.setupDoc parse initCwd (St.init fs))).events =
      writeEvents (finalSt (Lib.setupDoc parse initCwd
        (St.init (fs.writeFileSync (jsDirname initCwd ++ "/addon/package.json") c2)))).events := by
  have h2 : (fs.writeFileSync (jsDirname initCwd ++ "/addon/package.json") c2).files
      (jsDirname initCwd ++ "/addon/package.json") = some c2 := by
    simp
  have hne_r : (initCwd ++ "/app/router.js") ≠ (jsDirname initCwd ++ "/addon/package.json") :=
    append_ne_append _ _ _ _ (by decide) (by decide)
  have hne_t : (initCwd ++ "/app/templates") ≠ (jsDirname initCwd ++ "/addon/package.json") :=
    append_ne_append _ _ _ _ (by decide) (by decide)
  have hne_d : (initCwd ++ "/app/templates/docs") ≠
      (jsDirname initCwd ++ "/addon/package.json") :=
    append_ne_append _ _ _ _ (by decide) (by decide)
  have hne_re : (jsDirname initCwd ++ "/addon/README.md") ≠
      (jsDirname initCwd ++ "/addon/package.json") :=
    append_ne_append _ _ _ _ (by decide) (by decide)
  rw [Lib.setupDoc_finalSt parse initCwd fs c1 m1 h1 hp1,
    Lib.setupDoc_finalSt parse initCwd _ c2 m2 h2 hp2,
    Lib.tail_writeEvents_spec, Lib.tail_writeEvents_spec, hn, hr]
  simp only [St.fs_info, St.fs_init, St.events_info, St.events_init, FS.existsSync,
    FS.files_writeFileSync, FS.dirs_writeFileSync]
  rw [if_neg hne_r, if_neg hne_t, if_neg hne_d, if_neg hne_re]

/-- Closed witness for claim10: the two concrete manifests agree on name
and repository and differ in an extra field, and the two runs emit the
same write events. -/
theorem claim10_witness :
    (fsDemo.files (jsDirname "/proj/test-app" ++ "/addon/package.json") = some "PKG"
      ∧ parseTwo "PKG" = some [("name", "Foo"), ("repository", "https://x")]
      ∧ parseTwo "PKG2" = some [("name", "Foo"), ("repository", "https://x"), ("private", "yes")]
      ∧ List.lookup "name" ([("name", "Foo"), ("repository", "https://x")] : Manifest) =
          List.lookup "name"
            ([("name", "Foo"), ("repository", "https://x"), ("private", "yes")] : Manifest)
      ∧ List.lookup "repository" ([("name", "Foo"), ("repository", "https://x")] : Manifest) =
          List.lookup "repository"
            ([("name", "Foo"), ("repository", "https://x"), ("private", "yes")] : Manifest))
    ∧ writeEvents (finalSt (Lib.setupDoc parseTwo "/proj/test-app" (St.init fsDemo))).events =
      writeEvents (finalSt (Lib.setupDoc parseTwo "/proj/test-app"
        (St.init (fsDemo.writeFileSync (jsDirname "/proj/test-app" ++ "/addon/package.json")
          "PKG2")))).events :=
  ⟨⟨by decide, by decide, by decide, by decide, by decide⟩,
    claim10_manifest_noninterference parseTwo "/proj/test-app" fsDemo "PKG" "PKG2"
      [("name", "Foo"), ("repository", "https://x")]
      [("name", "Foo"), ("repository", "https://x"), ("private", "yes")]
      (by decide) (by decide) (by decide) (by decide) (by decide)⟩

/-! Branch equations and frame lemmas for the emitters of the unnamed
sibling script (Part0). -/

theorem Part0.updateRouter_absent_p0 (r : String) (st : St)
    (h : st.fs.existsSync (r ++ "/test-app/app/router.js") = false) :
    Part0.updateRouter r st = st.warn "router.js not found, skipping router setup." := by
  unfold Part0.updateRouter
  simp [String.append_assoc, h]

theorem Part0.updateRouter_present_p0 (r : String) (st : St)
    (h : st.fs.existsSync (r ++ "/test-app/app/router.js") = true) :
    Part0.updateRouter r st =
      (st.write (r ++ "/test-app/app/router.js") routerContent).info "Updated router.js" := by
  unfold Part0.updateRouter
  simp [String.append_assoc, h]

theorem Part0.updateApplicationTemplate_eq_p0 (r : String) (n u : Option String) (st : St) :
    Part0.updateApplicationTemplate r n u st =
      ((st.ensureDir (r ++ "/test-app/app/templates")).write
        (r ++ "/test-app/app/templates/application.hbs")
        (applicationTemplate (jsInterp n) (jsInterp u))).info "Updated application.hbs" := by
  unfold Part0.updateApplicationTemplate
  simp [String.append_assoc]

theorem Part0.createDocsIndex_copy_p0 (r : String) (st : St) (C : String)
    (h : st.fs.files (r ++ "/README.md") = some C) :
    Part0.createDocsIndex r st = Except.ok
      (((st.ensureDir (r ++ "/test-app/app/templates/docs")).write
        (r ++ "/test-app/app/templates/docs/index.md") C).info
        "Created docs/index.md from README.md") := by
  unfold Part0.createDocsIndex
  simp [FS.existsSync, String.append_assoc, h]

theorem Part0.createDocsIndex_placeholder_p0 (r : String) (st : St)
    (h1 : st.fs.files (r ++ "/README.md") = none)
    (h2 : st.fs.dirs (r ++ "/README.md") = false) :
    Part0.createDocsIndex r st = Except.ok
      (((st.ensureDir (r ++ "/test-app/app/templates/docs")).warn
        "README.md not found, creating a placeholder index.md.").write
        (r ++ "/test-app/app/templates/docs/index.md") placeholderDocsIndex) := by
  have hne : (r ++ "/README.md") ≠ (r ++ "/test-app/app/templates/docs") :=
    append_ne_append _ _ _ _ (by decide) (by decide)
  unfold Part0.createDocsIndex
  simp [FS.existsSync, FS.dirs_ensureDir_of_ne _ _ _ hne, String.append_assoc, h1, h2]

theorem Part0.createDocsIndex_crash_p0 (r : String) (st : St)
    (h1 : st.fs.files (r ++ "/README.md") = none)
    (h2 : st.fs.dirs (r ++ "/README.md") = true) :
    Part0.createDocsIndex r st =
      Except.error (st.ensureDir (r ++ "/test-app/app/templates/docs")) := by
  have hne : (r ++ "/README.md") ≠ (r ++ "/test-app/app/templates/docs") :=
    append_ne_append _ _ _ _ (by decide) (by decide)
  unfold Part0.createDocsIndex
  simp [FS.existsSync, FS.dirs_ensureDir_of_ne _ _ _ hne, String.append_assoc, h1, h2]

theorem Part0.createIndexLayout_eq (r : String) (st : St) :
    Part0.createIndexLayout r st =
      ((st.ensureDir (r ++ "/test-app/app/templates")).write
        (r ++ "/test-app/app/templates/index.hbs") indexLayoutContent).info
        "Created index.hbs" := by
  unfold Part0.createIndexLayout
  simp [String.append_assoc]

theorem Part0.createDocsLayout_eq (r : String) (st : St) :
    Part0.createDocsLayout r st =
      ((st.ensureDir (r ++ "/test-app/app/templates")).write
        (r ++ "/test-app/app/templates/docs.hbs") docsLayoutContent).info
        "Created docs.hbs" := by
  unfold Part0.createDocsLayout
  simp [String.append_assoc]

theorem Part0.getParentPackageInfo_absent_p0 (parse : String → Option Manifest) (a : String)
    (st : St)
    (h1 : st.fs.files (a ++ "/package.json") = none)
    (h2 : st.fs.dirs (a ++ "/package.json") = false) :
    Part0.getParentPackageInfo parse a st =
      Except.ok ([], st.warn "Could not find parent package.json") := by
  unfold Part0.getParentPackageInfo
  simp [FS.existsSync, h1, h2]

theorem Part0.getParentPackageInfo_ok_p0 (parse : String → Option Manifest) (a : String) (st : St)
    (c : String) (m : Manifest)
    (h1 : st.fs.files (a ++ "/package.json") = some c)
    (h2 : parse c = some m) :
    Part0.getParentPackageInfo parse a st = Except.ok (m, st) := by
  unfold Part0.getParentPackageInfo
  simp [FS.existsSync, h1, h2]

theorem writesOf_append (es1 es2 : List Event) :
    writesOf (es1 ++ es2) = writesOf es1 ++ writesOf es2 := by
  simp [writesOf, List.filterMap_append]

theorem writesOf_write (p c : String) (b : Bool) :
    writesOf [Event.write p c b] = [(p, c)] := rfl

theorem writesOf_info (m : String) : writesOf [Event.info m] = [] := rfl

theorem writesOf_warn (m : String) : writesOf [Event.warn m] = [] := rfl

theorem Part0.updateRouter_files_p0 (r : String) (st : St) (q : String)
    (h : q ≠ r ++ "/test-app/app/router.js") :
    (Part0.updateRouter r st).fs.files q = st.fs.files q := by
  cases hex : st.fs.existsSync (r ++ "/test-app/app/router.js")
  · rw [Part0.updateRouter_absent_p0 r st hex]
    rfl
  · rw [Part0.updateRouter_present_p0 r st hex]
    simp [h]

theorem Part0.updateRouter_dirs_p0 (r : String) (st : St) :
    (Part0.updateRouter r st).fs.dirs = st.fs.dirs := by
  cases hex : st.fs.existsSync (r ++ "/test-app/app/router.js")
  · rw [Part0.updateRouter_absent_p0 r st hex]
    rfl
  · rw [Part0.updateRouter_present_p0 r st hex]
    rfl

theorem Part0.updateRouter_writesOf (r : String) (st : St) :
    writesOf (Part0.updateRouter r st).events =
      writesOf st.events
      ++ (if st.fs.existsSync (r ++ "/test-app/app/router.js") = true then
            [(r ++ "/test-app/app/router.js", routerContent)]
          else []) := by
  cases hex : st.fs.existsSync (r ++ "/test-app/app/router.js")
  · rw [Part0.updateRouter_absent_p0 r st hex, St.events_warn, writesOf_append, writesOf_warn]
    simp
  · rw [Part0.updateRouter_present_p0 r st hex, St.events_info, St.events_write,
      writesOf_append, writesOf_append, writesOf_info, writesOf_write]
    simp

theorem Part0.updateApplicationTemplate_files_p0 (r : String) (n u : Option String) (st : St)
    (q : String) (h : q ≠ r ++ "/test-app/app/templates/application.hbs") :
    (Part0.updateApplicationTemplate r n u st).fs.files q = st.fs.files q := by
  rw [Part0.updateApplicationTemplate_eq_p0]
  simp [h]

theorem Part0.updateApplicationTemplate_dirs_p0 (r : String) (n u : Option String) (st : St)
    (q : String) (h : q ≠ r ++ "/test-app/app/templates") :
    (Part0.updateApplicationTemplate r n u st).fs.dirs q = st.fs.dirs q := by
  rw [Part0.updateApplicationTemplate_eq_p0]
  simp [FS.dirs_ensureDir_of_ne _ _ _ h]

theorem Part0.createIndexLayout_files (r : String) (st : St) (q : String)
    (h : q ≠ r ++ "/test-app/app/templates/index.hbs") :
    (Part0.createIndexLayout r st).fs.files q = st.fs.files q := by
  rw [Part0.createIndexLayout_eq]
  simp [h]

theorem Part0.createIndexLayout_dirs (r : String) (st : St) (q : String)
    (h : q ≠ r ++ "/test-app/app/templates") :
    (Part0.createIndexLayout r st).fs.dirs q = st.fs.dirs q := by
  rw [Part0.createIndexLayout_eq]
  simp [FS.dirs_ensureDir_of_ne _ _ _ h]

theorem Part0.createDocsLayout_files (r : String) (st : St) (q : String)
    (h : q ≠ r ++ "/test-app/app/templates/docs.hbs") :
    (Part0.createDocsLayout r st).fs.files q = st.fs.files q := by
  rw [Part0.createDocsLayout_eq]
  simp [h]

theorem Part0.createDocsLayout_dirs (r : String) (st : St) (q : String)
    (h : q ≠ r ++ "/test-app/app/templates") :
    (Part0.createDocsLayout r st).fs.dirs q = st.fs.dirs q := by
  rw [Part0.createDocsLayout_eq]
  simp [FS.dirs_ensureDir_of_ne _ _ _ h]

/-- Shape of a Part0 run once the manifest loads. -/
theorem Part0.setupDoc_after_manifest_p0 (parse : String → Option Manifest) (initCwd : String)
    (fs : FS) (c : String) (m : Manifest)
    (h1 : fs.files (jsDirname initCwd ++ "/addon/package.json") = some c)
    (h2 : parse c = some m) :
    Part0.setupDoc parse initCwd (St.init fs) =
      (match Part0.createDocsIndex (pathJoin (jsDirname initCwd) "addon")
          (Part0.updateApplicationTemplate (pathJoin (jsDirname initCwd) "addon")
            (m.lookup "name") (m.lookup "repository")
            (Part0.updateRouter (pathJoin (jsDirname initCwd) "addon")
              (((St.init fs).info "ADDON ROOT").info
                ("Setting up ember-cli-addon-docs for " ++ jsInterp (m.lookup "name") ++ "...")))) with
        | Except.error st => Except.error st
        | Except.ok st =>
            Except.ok ((Part0.createDocsLayout (pathJoin (jsDirname initCwd) "addon")
              (Part0.createIndexLayout (pathJoin (jsDirname initCwd) "addon") st)).info
              "ember-cli-addon-docs setup completed successfully!")) := by
  simp only [Part0.setupDoc]
  rw [Part0.getParentPackageInfo_ok_p0 parse _ _ c m (by simpa [String.append_assoc] using h1) h2]

/-- Shape of a Part0 run when the manifest file is absent. -/
theorem Part0.setupDoc_after_no_manifest_p0 (parse : String → Option Manifest) (initCwd : String)
    (fs : FS)
    (h1 : fs.files (jsDirname initCwd ++ "/addon/package.json") = none)
    (h2 : fs.dirs (jsDirname initCwd ++ "/addon/package.json") = false) :
    Part0.setupDoc parse initCwd (St.init fs) =
      (match Part0.createDocsIndex (pathJoin (jsDirname initCwd) "addon")
          (Part0.updateApplicationTemplate (pathJoin (jsDirname initCwd) "addon") none none
            (Part0.updateRouter (pathJoin (jsDirname initCwd) "addon")
              ((((St.init fs).info "ADDON ROOT").warn "Could not find parent package.json").info
                ("Setting up ember-cli-addon-docs for " ++ jsInterp none ++ "...")))) with
        | Except.error st => Except.error st
        | Except.ok st =>
            Except.ok ((Part0.createDocsLayout (pathJoin (jsDirname initCwd) "addon")
              (Part0.createIndexLayout (pathJoin (jsDirname initCwd) "addon") st)).info
              "ember-cli-addon-docs setup completed successfully!")) := by
  simp only [Part0.setupDoc]
  rw [Part0.getParentPackageInfo_absent_p0 parse _ _
    (by simpa [String.append_assoc] using h1) (by simpa [String.append_assoc] using h2)]
  rfl

/-- A second ensureDir of the same directory leaves the stabilised value
untouched: once the directory flag follows the ensured formula, ensuring
again keeps the same formula. -/
theorem FS.dirs_ensureDir_stable (fs fs2 : FS) (d : String)
    (hfiles : fs2.files d = fs.files d)
    (hdirs : fs2.dirs d = (if fs.existsSync d = true then fs.dirs d else true)) :
    (fs2.ensureDir d).dirs d = (if fs.existsSync d = true then fs.dirs d else true) := by
  rw [FS.dirs_ensureDir_self]
  unfold FS.existsSync at hdirs ⊢
  rw [hfiles, hdirs]
  cases hso : (fs.files d).isSome <;> cases hd0 : fs.dirs d <;> simp [hso, hd0]

theorem ensure_formula_congr (fsA fsB : FS) (d : String)
    (hf : fsA.files d = fsB.files d) (hd : fsA.dirs d = fsB.dirs d) :
    (if fsA.existsSync d = true then fsA.dirs d else true) =
      (if fsB.existsSync d = true then fsB.dirs d else true) := by
  unfold FS.existsSync
  rw [hf, hd]

theorem Part0.updateRouter_files_present (r : String) (st : St)
    (h : st.fs.existsSync (r ++ "/test-app/app/router.js") = true) :
    (Part0.updateRouter r st).fs.files (r ++ "/test-app/app/router.js") =
      some routerContent := by
  rw [Part0.updateRouter_present_p0 _ _ h]
  simp

theorem Part0.updateApplicationTemplate_files_self (r : String) (n u : Option String) (st : St) :
    (Part0.updateApplicationTemplate r n u st).fs.files
      (r ++ "/test-app/app/templates/application.hbs") =
      some (applicationTemplate (jsInterp n) (jsInterp u)) := by
  rw [Part0.updateApplicationTemplate_eq_p0]
  simp

theorem Part0.updateApplicationTemplate_dirs_tmpl (r : String) (n u : Option String) (st : St) :
    (Part0.updateApplicationTemplate r n u st).fs.dirs (r ++ "/test-app/app/templates") =
      (if st.fs.existsSync (r ++ "/test-app/app/templates") = true then
        st.fs.dirs (r ++ "/test-app/app/templates") else true) := by
  rw [Part0.updateApplicationTemplate_eq_p0]
  simp only [St.fs_info, St.fs_write, St.fs_ensureDir, FS.dirs_writeFileSync]
  exact FS.dirs_ensureDir_self _ _

theorem Part0.updateApplicationTemplate_writesOf (r : String) (n u : Option String) (st : St) :
    writesOf (Part0.updateApplicationTemplate r n u st).events =
      writesOf st.events ++ [(r ++ "/test-app/app/templates/application.hbs",
        applicationTemplate (jsInterp n) (jsInterp u))] := by
  rw [Part0.updateApplicationTemplate_eq_p0, St.events_info, St.events_write, St.events_ensureDir,
    writesOf_append, writesOf_append, writesOf_info, writesOf_write]
  simp

theorem Part0.createIndexLayout_files_self (r : String) (st : St) :
    (Part0.createIndexLayout r st).fs.files (r ++ "/test-app/app/templates/index.hbs") =
      some indexLayoutContent := by
  rw [Part0.createIndexLayout_eq]
  simp

theorem Part0.createIndexLayout_dirs_tmpl (r : String) (st : St) :
    (Part0.createIndexLayout r st).fs.dirs (r ++ "/test-app/app/templates") =
      (if st.fs.existsSync (r ++ "/test-app/app/templates") = true then
        st.fs.dirs (r ++ "/test-app/app/templates") else true) := by
  rw [Part0.createIndexLayout_eq]
  simp only [St.fs_info, St.fs_write, St.fs_ensureDir, FS.dirs_writeFileSync]
  exact FS.dirs_ensureDir_self _ _

theorem Part0.createIndexLayout_writesOf (r : String) (st : St) :
    writesOf (Part0.createIndexLayout r st).events =
      writesOf st.events ++ [(r ++ "/test-app/app/templates/index.hbs", indexLayoutContent)] := by
  rw [Part0.createIndexLayout_eq, St.events_info, St.events_write, St.events_ensureDir,
    writesOf_append, writesOf_append, writesOf_info, writesOf_write]
  simp

theorem Part0.createDocsLayout_files_self (r : String) (st : St) :
    (Part0.createDocsLayout r st).fs.files (r ++ "/test-app/app/templates/docs.hbs") =
      some docsLayoutContent := by
  rw [Part0.createDocsLayout_eq]
  simp

theorem Part0.createDocsLayout_dirs_tmpl (r : String) (st : St) :
    (Part0.createDocsLayout r st).fs.dirs (r ++ "/test-app/app/templates") =
      (if st.fs.existsSync (r ++ "/test-app/app/templates") = true then
        st.fs.dirs (r ++ "/test-app/app/templates") else true) := by
  rw [Part0.createDocsLayout_eq]
  simp only [St.fs_info, St.fs_write, St.fs_ensureDir, FS.dirs_writeFileSync]
  exact FS.dirs_ensureDir_self _ _

theorem Part0.createDocsLayout_writesOf (r : String) (st : St) :
    writesOf (Part0.createDocsLayout r st).events =
      writesOf st.events ++ [(r ++ "/test-app/app/templates/docs.hbs", docsLayoutContent)] := by
  rw [Part0.createDocsLayout_eq, St.events_info, St.events_write, St.events_ensureDir,
    writesOf_append, writesOf_append, writesOf_info, writesOf_write]
  simp

theorem Part0.updateRouter_files_ite (r : String) (st : St) :
    (Part0.updateRouter r st).fs.files (r ++ "/test-app/app/router.js") =
      (if st.fs.existsSync (r ++ "/test-app/app/router.js") = true then some routerContent
       else st.fs.files (r ++ "/test-app/app/router.js")) := by
  cases hex : st.fs.existsSync (r ++ "/test-app/app/router.js")
  · rw [Part0.updateRouter_absent_p0 _ _ hex]
    simp
  · rw [Part0.updateRouter_present_p0 _ _ hex]
    simp

/-- Full characterisation of the five-emitter tail of a Part0 run, for
starting states whose README situation cannot crash the docs-index step:
result state, contents of the five target paths, frame conditions, the
ensured directory flags and the list of performed writes. -/
theorem Part0.pass_ok (r : String) (n u : Option String) (st0 : St)
    (hrd : st0.fs.files (r ++ "/README.md") = none →
      st0.fs.dirs (r ++ "/README.md") = false) :
    ∃ st1,
      (match Part0.createDocsIndex r (Part0.updateApplicationTemplate r n u
          (Part0.updateRouter r st0)) with
        | Except.error st => Except.error st
        | Except.ok st =>
            Except.ok ((Part0.createDocsLayout r (Part0.createIndexLayout r st)).info
              "ember-cli-addon-docs setup completed successfully!")) = Except.ok st1
      ∧ st1.fs.files (r ++ "/test-app/app/router.js") =
          (if st0.fs.existsSync (r ++ "/test-app/app/router.js") = true then some routerContent
           else st0.fs.files (r ++ "/test-app/app/router.js"))
      ∧ st1.fs.files (r ++ "/test-app/app/templates/application.hbs") =
          some (applicationTemplate (jsInterp n) (jsInterp u))
      ∧ st1.fs.files (r ++ "/test-app/app/templates/docs/index.md") =
          some (match st0.fs.files (r ++ "/README.md") with
            | some C => C
            | none => placeholderDocsIndex)
      ∧ st1.fs.files (r ++ "/test-app/app/templates/index.hbs") = some indexLayoutContent
      ∧ st1.fs.files (r ++ "/test-app/app/templates/docs.hbs") = some docsLayoutContent
      ∧ (∀ q, q ≠ r ++ "/test-app/app/router.js" →
          q ≠ r ++ "/test-app/app/templates/application.hbs" →
          q ≠ r ++ "/test-app/app/templates/docs/index.md" →
          q ≠ r ++ "/test-app/app/templates/index.hbs" →
          q ≠ r ++ "/test-app/app/templates/docs.hbs" →
          st1.fs.files q = st0.fs.files q)
      ∧ (∀ q, q ≠ r ++ "/test-app/app/templates" →
          q ≠ r ++ "/test-app/app/templates/docs" →
          st1.fs.dirs q = st0.fs.dirs q)
      ∧ st1.fs.dirs (r ++ "/test-app/app/templates") =
          (if st0.fs.existsSync (r ++ "/test-app/app/templates") = true then
            st0.fs.dirs (r ++ "/test-app/app/templates") else true)
      ∧ st1.fs.dirs (r ++ "/test-app/app/templates/docs") =
          (if st0.fs.existsSync (r ++ "/test-app/app/templates/docs") = true then
            st0.fs.dirs (r ++ "/test-app/app/templates/docs") else true)
      ∧ writesOf st1.events = writesOf st0.events
          ++ (if st0.fs.existsSync (r ++ "/test-app/app/router.js") = true then
                [(r ++ "/test-app/app/router.js", routerContent)] else [])
          ++ [(r ++ "/test-app/app/templates/application.hbs",
                applicationTemplate (jsInterp n) (jsInterp u))]
          ++ [(r ++ "/test-app/app/templates/docs/index.md",
                match st0.fs.files (r ++ "/README.md") with
                | some C => C
                | none => placeholderDocsIndex)]
          ++ [(r ++ "/test-app/app/templates/index.hbs", indexLayoutContent)]
          ++ [(r ++ "/test-app/app/templates/docs.hbs", docsLayoutContent)] := by
  have n1 : (r ++ "/test-app/app/router.js") ≠ (r ++ "/test-app/app/templates/application.hbs") :=
    append_ne_append _ _ _ _ (by decide) (by decide)
  have n2 : (r ++ "/test-app/app/router.js") ≠ (r ++ "/test-app/app/templates/docs/index.md") :=
    append_ne_append _ _ _ _ (by decide) (by decide)
  have n3 : (r ++ "/test-app/app/router.js") ≠ (r ++ "/test-app/app/templates/index.hbs") :=
    append_ne_append _ _ _ _ (by decide) (by decide)
  have n4 : (r ++ "/test-app/app/router.js") ≠ (r ++ "/test-app/app/templates/docs.hbs") :=
    append_ne_append _ _ _ _ (by decide) (by decide)
  have n5 : (r ++ "/test-app/app/templates/application.hbs") ≠
      (r ++ "/test-app/app/templates/docs/index.md") :=
    append_ne_append _ _ _ _ (by decide) (by decide)
  have n6 : (r ++ "/test-app/app/templates/application.hbs") ≠
      (r ++ "/test-app/app/templates/index.hbs") :=
    append_ne_append _ _ _ _ (by decide) (by decide)
  have n7 : (r ++ "/test-app/app/templates/application.hbs") ≠
      (r ++ "/test-app/app/templates/docs.hbs") :=
    append_ne_append _ _ _ _ (by decide) (by decide)
  have n8 : (r ++ "/test-app/app/templates/docs/index.md") ≠
      (r ++ "/test-app/app/templates/index.hbs") :=
    append_ne_append _ _ _ _ (by decide) (by decide)
  have n9 : (r ++ "/test-app/app/templates/docs/index.md") ≠
      (r ++ "/test-app/app/templates/docs.hbs") :=
    append_ne_append _ _ _ _ (by decide) (by decide)
  have n10 : (r ++ "/test-app/app/templates/index.hbs") ≠
      (r ++ "/test-app/app/templates/docs.hbs") :=
    append_ne_append _ _ _ _ (by decide) (by decide)
  have n11 : (r ++ "/test-app/app/templates") ≠ (r ++ "/test-app/app/templates/docs") :=
    append_ne_append _ _ _ _ (by decide) (by decide)
  have n12 : (r ++ "/test-app/app/templates") ≠ (r ++ "/test-app/app/router.js") :=
    append_ne_append _ _ _ _ (by decide) (by decide)
  have n13 : (r ++ "/test-app/app/templates") ≠
      (r ++ "/test-app/app/templates/application.hbs") :=
    append_ne_append _ _ _ _ (by decide) (by decide)
  have n14 : (r ++ "/test-app/app/templates") ≠ (r ++ "/test-app/app/templates/docs/index.md") :=
    append_ne_append _ _ _ _ (by decide) (by decide)
  have n15 : (r ++ "/test-app/app/templates") ≠ (r ++ "/test-app/app/templates/index.hbs") :=
    append_ne_append _ _ _ _ (by decide) (by decide)
  have n17 : (r ++ "/test-app/app/templates/docs") ≠ (r ++ "/test-app/app/router.js") :=
    append_ne_append _ _ _ _ (by decide) (by decide)
  have n18 : (r ++ "/test-app/app/templates/docs") ≠
      (r ++ "/test-app/app/templates/application.hbs") :=
    append_ne_append _ _ _ _ (by decide) (by decide)
  have n22 : (r ++ "/README.md") ≠ (r ++ "/test-app/app/router.js") :=
    append_ne_append _ _ _ _ (by decide) (by decide)
  have n23 : (r ++ "/README.md") ≠ (r ++ "/test-app/app/templates/application.hbs") :=
    append_ne_append _ _ _ _ (by decide) (by decide)
  have n24 : (r ++ "/README.md") ≠ (r ++ "/test-app/app/templates") :=
    append_ne_append _ _ _ _ (by decide) (by decide)
  have fA_frame : ∀ q, q ≠ r ++ "/test-app/app/router.js" →
      q ≠ r ++ "/test-app/app/templates/application.hbs" →
      (Part0.updateApplicationTemplate r n u (Part0.updateRouter r st0)).fs.files q =
        st0.fs.files q := by
    intro q hq1 hq2
    rw [Part0.updateApplicationTemplate_files_p0 _ _ _ _ _ hq2, Part0.updateRouter_files_p0 _ _ _ hq1]
  have fA_router : (Part0.updateApplicationTemplate r n u
      (Part0.updateRouter r st0)).fs.files (r ++ "/test-app/app/router.js") =
      (if st0.fs.existsSync (r ++ "/test-app/app/router.js") = true then some routerContent
       else st0.fs.files (r ++ "/test-app/app/router.js")) := by
    rw [Part0.updateApplicationTemplate_files_p0 _ _ _ _ _ n1, Part0.updateRouter_files_ite]
  have fA_dirs_frame : ∀ q, q ≠ r ++ "/test-app/app/templates" →
      (Part0.updateApplicationTemplate r n u (Part0.updateRouter r st0)).fs.dirs q =
        st0.fs.dirs q := by
    intro q hq
    rw [Part0.updateApplicationTemplate_dirs_p0 _ _ _ _ _ hq]
    exact congrFun (Part0.updateRouter_dirs_p0 r st0) q
  have fA_dirs_tmpl : (Part0.updateApplicationTemplate r n u
      (Part0.updateRouter r st0)).fs.dirs (r ++ "/test-app/app/templates") =
      (if st0.fs.existsSync (r ++ "/test-app/app/templates") = true then
        st0.fs.dirs (r ++ "/test-app/app/templates") else true) := by
    rw [Part0.updateApplicationTemplate_dirs_tmpl]
    exact ensure_formula_congr _ _ _ (Part0.updateRouter_files_p0 _ _ _ n12)
      (congrFun (Part0.updateRouter_dirs_p0 r st0) _)
  have wA : writesOf (Part0.updateApplicationTemplate r n u
      (Part0.updateRouter r st0)).events =
      writesOf st0.events
      ++ (if st0.fs.existsSync (r ++ "/test-app/app/router.js") = true then
            [(r ++ "/test-app/app/router.js", routerContent)] else [])
      ++ [(r ++ "/test-app/app/templates/application.hbs",
            applicationTemplate (jsInterp n) (jsInterp u))] := by
    rw [Part0.updateApplicationTemplate_writesOf, Part0.updateRouter_writesOf]
  cases hrf : st0.fs.files (r ++ "/README.md") with
  | some C =>
    have hfA_rd : (Part0.updateApplicationTemplate r n u
        (Part0.updateRouter r st0)).fs.files (r ++ "/README.md") = some C := by
      rw [fA_frame _ n22 n23]
      exact hrf
    rw [Part0.createDocsIndex_copy_p0 _ _ C hfA_rd]
    have dD_files_tmpl : (((Part0.updateApplicationTemplate r n u
        (Part0.updateRouter r st0)).ensureDir (r ++ "/test-app/app/templates/docs")).write
        (r ++ "/test-app/app/templates/docs/index.md") C).fs.files
        (r ++ "/test-app/app/templates") = st0.fs.files (r ++ "/test-app/app/templates") := by
      simp only [St.fs_write, St.fs_ensureDir, FS.files_writeFileSync, FS.files_ensureDir]
      rw [if_neg n14]
      exact fA_frame _ n12 n13
    have dD_dirs_tmpl : (((Part0.updateApplicationTemplate r n u
        (Part0.updateRouter r st0)).ensureDir (r ++ "/test-app/app/templates/docs")).write
        (r ++ "/test-app/app/templates/docs/index.md") C).fs.dirs
        (r ++ "/test-app/app/templates") =
        (if st0.fs.existsSync (r ++ "/test-app/app/templates") = true then
          st0.fs.dirs (r ++ "/test-app/app/templates") else true) := by
      simp only [St.fs_write, St.fs_ensureDir, FS.dirs_writeFileSync]
      rw [FS.dirs_ensureDir_of_ne _ _ _ n11]
      exact fA_dirs_tmpl
    have dD_dirs_docs : (((Part0.updateApplicationTemplate r n u
        (Part0.updateRouter r st0)).ensureDir (r ++ "/test-app/app/templates/docs")).write
        (r ++ "/test-app/app/templates/docs/index.md") C).fs.dirs
        (r ++ "/test-app/app/templates/docs") =
        (if st0.fs.existsSync (r ++ "/test-app/app/templates/docs") = true then
          st0.fs.dirs (r ++ "/test-app/app/templates/docs") else true) := by
      simp only [St.fs_write, St.fs_ensureDir, FS.dirs_writeFileSync]
      rw [FS.dirs_ensureDir_self]
      exact ensure_formula_congr _ _ _ (fA_frame _ n17 n18) (fA_dirs_frame _ n11.symm)
    refine ⟨_, rfl, ?_, ?_, ?_, ?_, ?_, ?_, ?_, ?_, ?_, ?_⟩
    · rw [St.fs_info, Part0.createDocsLayout_files _ _ _ n4,
        Part0.createIndexLayout_files _ _ _ n3]
      simp only [St.fs_info, St.fs_write, St.fs_ensureDir, FS.files_writeFileSync,
        FS.files_ensureDir]
      rw [if_neg n2]
      exact fA_router
    · rw [St.fs_info, Part0.createDocsLayout_files _ _ _ n7,
        Part0.createIndexLayout_files _ _ _ n6]
      simp only [St.fs_info, St.fs_write, St.fs_ensureDir, FS.files_writeFileSync,
        FS.files_ensureDir]
      rw [if_neg n5]
      exact Part0.updateApplicationTemplate_files_self r n u _
    · rw [St.fs_info, Part0.createDocsLayout_files _ _ _ n9,
        Part0.createIndexLayout_files _ _ _ n8]
      simp
    · rw [St.fs_info, Part0.createDocsLayout_files _ _ _ n10,
        Part0.createIndexLayout_files_self]
    · rw [St.fs_info, Part0.createDocsLayout_files_self]
    · intro q hq1 hq2 hq3 hq4 hq5
      rw [St.fs_info, Part0.createDocsLayout_files _ _ _ hq5,
        Part0.createIndexLayout_files _ _ _ hq4]
      simp only [St.fs_info, St.fs_write, St.fs_ensureDir, FS.files_writeFileSync,
        FS.files_ensureDir]
      rw [if_neg hq3]
      exact fA_frame _ hq1 hq2
    · intro q hq1 hq2
      rw [St.fs_info, Part0.createDocsLayout_dirs _ _ _ hq1,
        Part0.createIndexLayout_dirs _ _ _ hq1]
      simp only [St.fs_info, St.fs_write, St.fs_ensureDir, FS.dirs_writeFileSync]
      rw [FS.dirs_ensureDir_of_ne _ _ _ hq2]
      exact fA_dirs_frame _ hq1
    · rw [St.fs_info, Part0.createDocsLayout_eq]
      simp only [St.fs_info, St.fs_write, St.fs_ensureDir, FS.dirs_writeFileSync]
      refine FS.dirs_ensureDir_stable st0.fs _ _ ?_ ?_
      · rw [Part0.createIndexLayout_files _ _ _ n15]
        exact dD_files_tmpl
      · rw [Part0.createIndexLayout_eq]
        simp only [St.fs_info, St.fs_write, St.fs_ensureDir, FS.dirs_writeFileSync]
        exact FS.dirs_ensureDir_stable st0.fs _ _ dD_files_tmpl dD_dirs_tmpl
    · rw [St.fs_info, Part0.createDocsLayout_dirs _ _ _ n11.symm,
        Part0.createIndexLayout_dirs _ _ _ n11.symm]
      exact dD_dirs_docs
    · rw [St.events_info, writesOf_append, writesOf_info,
        Part0.createDocsLayout_writesOf, Part0.createIndexLayout_writesOf,
        St.events_info, St.events_write, St.events_ensureDir,
        writesOf_append, writesOf_append, writesOf_info, writesOf_write, wA]
      simp [List.append_assoc]
  | none =>
    have hfA_rd : (Part0.updateApplicationTemplate r n u
        (Part0.updateRouter r st0)).fs.files (r ++ "/README.md") = none := by
      rw [fA_frame _ n22 n23]
      exact hrf
    have hdA_rd : (Part0.updateApplicationTemplate r n u
        (Part0.updateRouter r st0)).fs.dirs (r ++ "/README.md") = false := by
      rw [fA_dirs_frame _ n24]
      exact hrd hrf
    rw [Part0.createDocsIndex_placeholder_p0 _ _ hfA_rd hdA_rd]
    have dD_files_tmpl : ((((Part0.updateApplicationTemplate r n u
        (Part0.updateRouter r st0)).ensureDir (r ++ "/test-app/app/templates/docs")).warn
        "README.md not found, creating a placeholder index.md.").write
        (r ++ "/test-app/app/templates/docs/index.md") placeholderDocsIndex).fs.files
        (r ++ "/test-app/app/templates") = st0.fs.files (r ++ "/test-app/app/templates") := by
      simp only [St.fs_write, St.fs_warn, St.fs_ensureDir, FS.files_writeFileSync,
        FS.files_ensureDir]
      rw [if_neg n14]
      exact fA_frame _ n12 n13
    have dD_dirs_tmpl : ((((Part0.updateApplicationTemplate r n u
        (Part0.updateRouter r st0)).ensureDir (r ++ "/test-app/app/templates/docs")).warn
        "README.md not found, creating a placeholder index.md.").write
        (r ++ "/test-app/app/templates/docs/index.md") placeholderDocsIndex).fs.dirs
        (r ++ "/test-app/app/templates") =
        (if st0.fs.existsSync (r ++ "/test-app/app/templates") = true then
          st0.fs.dirs (r ++ "/test-app/app/templates") else true) := by
      simp only [St.fs_write, St.fs_warn, St.fs_ensureDir, FS.dirs_writeFileSync]
      rw [FS.dirs_ensureDir_of_ne _ _ _ n11]
      exact fA_dirs_tmpl
    have dD_dirs_docs : ((((Part0.updateApplicationTemplate r n u
        (Part0.updateRouter r st0)).ensureDir (r ++ "/test-app/app/templates/docs")).warn
        "README.md not found, creating a placeholder index.md.").write
        (r ++ "/test-app/app/templates/docs/index.md") placeholderDocsIndex).fs.dirs
        (r ++ "/test-app/app/templates/docs") =
        (if st0.fs.existsSync (r ++ "/test-app/app/templates/docs") = true then
          st0.fs.dirs (r ++ "/test-app/app/templates/docs") else true) := by
      simp only [St.fs_write, St.fs_warn, St.fs_ensureDir, FS.dirs_writeFileSync]
      rw [FS.dirs_ensureDir_self]
      exact ensure_formula_congr _ _ _ (fA_frame _ n17 n18) (fA_dirs_frame _ n11.symm)
    refine ⟨_, rfl, ?_, ?_, ?_, ?_, ?_, ?_, ?_, ?_, ?_, ?_⟩
    · rw [St.fs_info, Part0.createDocsLayout_files _ _ _ n4,
        Part0.createIndexLayout_files _ _ _ n3]
      simp only [St.fs_info, St.fs_write, St.fs_warn, St.fs_ensureDir, FS.files_writeFileSync,
        FS.files_ensureDir]
      rw [if_neg n2]
      exact fA_router
    · rw [St.fs_info, Part0.createDocsLayout_files _ _ _ n7,
        Part0.createIndexLayout_files _ _ _ n6]
      simp only [St.fs_info, St.fs_write, St.fs_warn, St.fs_ensureDir, FS.files_writeFileSync,
        FS.files_ensureDir]
      rw [if_neg n5]
      exact Part0.updateApplicationTemplate_files_self r n u _
    · rw [St.fs_info, Part0.createDocsLayout_files _ _ _ n9,
        Part0.createIndexLayout_files _ _ _ n8]
      simp
    · rw [St.fs_info, Part0.createDocsLayout_files _ _ _ n10,
        Part0.createIndexLayout_files_self]
    · rw [St.fs_info, Part0.createDocsLayout_files_self]
    · intro q hq1 hq2 hq3 hq4 hq5
      rw [St.fs_info, Part0.createDocsLayout_files _ _ _ hq5,
        Part0.createIndexLayout_files _ _ _ hq4]
      simp only [St.fs_info, St.fs_write, St.fs_warn, St.fs_ensureDir, FS.files_writeFileSync,
        FS.files_ensureDir]
      rw [if_neg hq3]
      exact fA_frame _ hq1 hq2
    · intro q hq1 hq2
      rw [St.fs_info, Part0.createDocsLayout_dirs _ _ _ hq1,
        Part0.createIndexLayout_dirs _ _ _ hq1]
      simp only [St.fs_info, St.fs_write, St.fs_warn, St.fs_ensureDir, FS.dirs_writeFileSync]
      rw [FS.dirs_ensureDir_of_ne _ _ _ hq2]
      exact fA_dirs_frame _ hq1
    · rw [St.fs_info, Part0.createDocsLayout_eq]
      simp only [St.fs_info, St.fs_write, St.fs_ensureDir, FS.dirs_writeFileSync]
      refine FS.dirs_ensureDir_stable st0.fs _ _ ?_ ?_
      · rw [Part0.createIndexLayout_files _ _ _ n15]
        exact dD_files_tmpl
      · rw [Part0.createIndexLayout_eq]
        simp only [St.fs_info, St.fs_write, St.fs_ensureDir, FS.dirs_writeFileSync]
        exact FS.dirs_ensureDir_stable st0.fs _ _ dD_files_tmpl dD_dirs_tmpl
    · rw [St.fs_info, Part0.createDocsLayout_dirs _ _ _ n11.symm,
        Part0.createIndexLayout_dirs _ _ _ n11.symm]
      exact dD_dirs_docs
    · rw [St.events_info, writesOf_append, writesOf_info,
        Part0.createDocsLayout_writesOf, Part0.createIndexLayout_writesOf,
        St.events_write, St.events_warn, St.events_ensureDir,
        writesOf_append, writesOf_append, writesOf_warn, writesOf_write, wA]
      simp [List.append_assoc]

theorem writesOf_nil : writesOf [] = [] := rfl

theorem ensure_formula_idem (fs fs2 : FS) (d : String)
    (hf : fs2.files d = fs.files d)
    (hd : fs2.dirs d = (if fs.existsSync d = true then fs.dirs d else true)) :
    (if fs2.existsSync d = true then fs2.dirs d else true) =
      (if fs.existsSync d = true then fs.dirs d else true) := by
  unfold FS.existsSync at hd ⊢
  rw [hf, hd]
  cases hso : (fs.files d).isSome <;> cases hd0 : fs.dirs d <;> simp [hso, hd0]

theorem existsSync_write_formula_pres (fs fs2 : FS) (p c : String)
    (hf : fs2.files p = (if fs.existsSync p = true then some c else fs.files p))
    (hd : fs2.dirs p = fs.dirs p) :
    fs2.existsSync p = fs.existsSync p := by
  unfold FS.existsSync at hf ⊢
  rw [hf, hd]
  cases hso : (fs.files p).isSome <;> cases hd0 : fs.dirs p <;> simp [hso, hd0]

/-- Running the Part0 emitter tail a second time from the filesystem produced
by a first run writes the same path-content pairs and leaves the filesystem
unchanged. -/
theorem Part0.tail_idem (r : String) (n u : Option String) (stA stB st1 : St)
    (hAw : writesOf stA.events = [])
    (hBfs : stB.fs = st1.fs) (hBw : writesOf stB.events = [])
    (hrd : stA.fs.files (r ++ "/README.md") = none →
      stA.fs.dirs (r ++ "/README.md") = false)
    (h1 : (match Part0.createDocsIndex r (Part0.updateApplicationTemplate r n u
          (Part0.updateRouter r stA)) with
        | Except.error st => Except.error st
        | Except.ok st =>
            Except.ok ((Part0.createDocsLayout r (Part0.createIndexLayout r st)).info
              "ember-cli-addon-docs setup completed successfully!")) = Except.ok st1) :
    ∃ st2,
      (match Part0.createDocsIndex r (Part0.updateApplicationTemplate r n u
          (Part0.updateRouter r stB)) with
        | Except.error st => Except.error st
        | Except.ok st =>
            Except.ok ((Part0.createDocsLayout r (Part0.createIndexLayout r st)).info
              "ember-cli-addon-docs setup completed successfully!")) = Except.ok st2
      ∧ st2.fs.files = st1.fs.files ∧ st2.fs.dirs = st1.fs.dirs
      ∧ writesOf st2.events = writesOf st1.events := by
  have e1 : (r ++ "/README.md") ≠ (r ++ "/test-app/app/router.js") :=
    append_ne_append _ _ _ _ (by decide) (by decide)
  have e2 : (r ++ "/README.md") ≠ (r ++ "/test-app/app/templates/application.hbs") :=
    append_ne_append _ _ _ _ (by decide) (by decide)
  have e3 : (r ++ "/README.md") ≠ (r ++ "/test-app/app/templates/docs/index.md") :=
    append_ne_append _ _ _ _ (by decide) (by decide)
  have e4 : (r ++ "/README.md") ≠ (r ++ "/test-app/app/templates/index.hbs") :=
    append_ne_append _ _ _ _ (by decide) (by decide)
  have e5 : (r ++ "/README.md") ≠ (r ++ "/test-app/app/templates/docs.hbs") :=
    append_ne_append _ _ _ _ (by decide) (by decide)
  have e6 : (r ++ "/README.md") ≠ (r ++ "/test-app/app/templates") :=
    append_ne_append _ _ _ _ (by decide) (by decide)
  have e7 : (r ++ "/README.md") ≠ (r ++ "/test-app/app/templates/docs") :=
    append_ne_append _ _ _ _ (by decide) (by decide)
  have e8 : (r ++ "/test-app/app/router.js") ≠ (r ++ "/test-app/app/templates") :=
    append_ne_append _ _ _ _ (by decide) (by decide)
  have e9 : (r ++ "/test-app/app/router.js") ≠ (r ++ "/test-app/app/templates/docs") :=
    append_ne_append _ _ _ _ (by decide) (by decide)
  have t1 : (r ++ "/test-app/app/templates") ≠ (r ++ "/test-app/app/router.js") :=
    append_ne_append _ _ _ _ (by decide) (by decide)
  have t2 : (r ++ "/test-app/app/templates") ≠
      (r ++ "/test-app/app/templates/application.hbs") :=
    append_ne_append _ _ _ _ (by decide) (by decide)
  have t3 : (r ++ "/test-app/app/templates") ≠
      (r ++ "/test-app/app/templates/docs/index.md") :=
    append_ne_append _ _ _ _ (by decide) (by decide)
  have t4 : (r ++ "/test-app/app/templates") ≠ (r ++ "/test-app/app/templates/index.hbs") :=
    append_ne_append _ _ _ _ (by decide) (by decide)
  have t5 : (r ++ "/test-app/app/templates") ≠ (r ++ "/test-app/app/templates/docs.hbs") :=
    append_ne_append _ _ _ _ (by decide) (by decide)
  have g1 : (r ++ "/test-app/app/templates/docs") ≠ (r ++ "/test-app/app/router.js") :=
    append_ne_append _ _ _ _ (by decide) (by decide)
  have g2 : (r ++ "/test-app/app/templates/docs") ≠
      (r ++ "/test-app/app/templates/application.hbs") :=
    append_ne_append _ _ _ _ (by decide) (by decide)
  have g3 : (r ++ "/test-app/app/templates/docs") ≠
      (r ++ "/test-app/app/templates/docs/index.md") :=
    append_ne_append _ _ _ _ (by decide) (by decide)
  have g4 : (r ++ "/test-app/app/templates/docs") ≠
      (r ++ "/test-app/app/templates/index.hbs") :=
    append_ne_append _ _ _ _ (by decide) (by decide)
  have g5 : (r ++ "/test-app/app/templates/docs") ≠
      (r ++ "/test-app/app/templates/docs.hbs") :=
    append_ne_append _ _ _ _ (by decide) (by decide)
  obtain ⟨s1p, he1, c1r, c1a, c1d, c1i, c1h, c1f, c1df, c1dt, c1dd, c1w⟩ :=
    Part0.pass_ok r n u stA hrd
  rw [he1] at h1
  injection h1 with h1e
  have h1s : st1 = s1p := h1e.symm
  subst h1s
  have hfrm : st1.fs.files (r ++ "/README.md") = stA.fs.files (r ++ "/README.md") :=
    c1f _ e1 e2 e3 e4 e5
  have hdrm : st1.fs.dirs (r ++ "/README.md") = stA.fs.dirs (r ++ "/README.md") :=
    c1df _ e6 e7
  have hrd2 : stB.fs.files (r ++ "/README.md") = none →
      stB.fs.dirs (r ++ "/README.md") = false := by
    rw [hBfs, hfrm, hdrm]
    exact hrd
  obtain ⟨s2p, he2, d2r, d2a, d2d, d2i, d2h, d2f, d2df, d2dt, d2dd, d2w⟩ :=
    Part0.pass_ok r n u stB hrd2
  rw [hBfs] at d2r d2d d2f d2df d2dt d2dd d2w
  have hpres : st1.fs.existsSync (r ++ "/test-app/app/router.js") =
      stA.fs.existsSync (r ++ "/test-app/app/router.js") :=
    existsSync_write_formula_pres stA.fs st1.fs _ _ c1r (c1df _ e8 e9)
  have hftm : st1.fs.files (r ++ "/test-app/app/templates") =
      stA.fs.files (r ++ "/test-app/app/templates") :=
    c1f _ t1 t2 t3 t4 t5
  have hfdd : st1.fs.files (r ++ "/test-app/app/templates/docs") =
      stA.fs.files (r ++ "/test-app/app/templates/docs") :=
    c1f _ g1 g2 g3 g4 g5
  refine ⟨s2p, he2, ?_, ?_, ?_⟩
  · funext q
    by_cases hq1 : q = r ++ "/test-app/app/router.js"
    · subst hq1
      rw [d2r, hpres, c1r]
      by_cases hE : stA.fs.existsSync (r ++ "/test-app/app/router.js") = true <;> simp [hE]
    by_cases hq2 : q = r ++ "/test-app/app/templates/application.hbs"
    · subst hq2
      rw [d2a, c1a]
    by_cases hq3 : q = r ++ "/test-app/app/templates/docs/index.md"
    · subst hq3
      rw [d2d, hfrm, c1d]
    by_cases hq4 : q = r ++ "/test-app/app/templates/index.hbs"
    · subst hq4
      rw [d2i, c1i]
    by_cases hq5 : q = r ++ "/test-app/app/templates/docs.hbs"
    · subst hq5
      rw [d2h, c1h]
    exact d2f q hq1 hq2 hq3 hq4 hq5
  · funext q
    by_cases hq1 : q = r ++ "/test-app/app/templates"
    · subst hq1
      rw [d2dt]
      exact (ensure_formula_idem stA.fs st1.fs _ hftm c1dt).trans c1dt.symm
    by_cases hq2 : q = r ++ "/test-app/app/templates/docs"
    · subst hq2
      rw [d2dd]
      exact (ensure_formula_idem stA.fs st1.fs _ hfdd c1dd).trans c1dd.symm
    exact d2df q hq1 hq2
  · rw [hBw] at d2w
    rw [hAw] at c1w
    rw [hpres, hfrm] at d2w
    rw [d2w, c1w]

/-- C8: idempotence of the full sequence. For any starting filesystem on
which a run succeeds (manifest absent or parseable, and no directory sitting
at the README path when the README file is absent), running
src/unnamed/part_000 a second time over the filesystem left by the first run
succeeds, performs exactly the same writes (same paths, byte-identical
content), and leaves the filesystem identical to the state after the first
run. -/
theorem claim8_idempotent (parse : String → Option Manifest) (initCwd : String) (fs : FS)
    (hman : (fs.files (jsDirname initCwd ++ "/addon/package.json") = none ∧
             fs.dirs (jsDirname initCwd ++ "/addon/package.json") = false) ∨
            (∃ c m, fs.files (jsDirname initCwd ++ "/addon/package.json") = some c ∧
             parse c = some m))
    (hrd : fs.files (pathJoin (jsDirname initCwd) "addon" ++ "/README.md") = none →
           fs.dirs (pathJoin (jsDirname initCwd) "addon" ++ "/README.md") = false) :
    ∃ st1 st2, Part0.setupDoc parse initCwd (St.init fs) = Except.ok st1 ∧
      Part0.setupDoc parse initCwd (St.init st1.fs) = Except.ok st2 ∧
      st2.fs.files = st1.fs.files ∧ st2.fs.dirs = st1.fs.dirs ∧
      writesOf st2.events = writesOf st1.events := by
  have p1 : (jsDirname initCwd ++ "/addon/package.json") ≠
      (pathJoin (jsDirname initCwd) "addon" ++ "/test-app/app/router.js") :=
    append_ne_append _ _ _ _ (by decide) (by decide)
  have p2 : (jsDirname initCwd ++ "/addon/package.json") ≠
      (pathJoin (jsDirname initCwd) "addon" ++ "/test-app/app/templates/application.hbs") :=
    append_ne_append _ _ _ _ (by decide) (by decide)
  have p3 : (jsDirname initCwd ++ "/addon/package.json") ≠
      (pathJoin (jsDirname initCwd) "addon" ++ "/test-app/app/templates/docs/index.md") :=
    append_ne_append _ _ _ _ (by decide) (by decide)
  have p4 : (jsDirname initCwd ++ "/addon/package.json") ≠
      (pathJoin (jsDirname initCwd) "addon" ++ "/test-app/app/templates/index.hbs") :=
    append_ne_append _ _ _ _ (by decide) (by decide)
  have p5 : (jsDirname initCwd ++ "/addon/package.json") ≠
      (pathJoin (jsDirname initCwd) "addon" ++ "/test-app/app/templates/docs.hbs") :=
    append_ne_append _ _ _ _ (by decide) (by decide)
  have p6 : (jsDirname initCwd ++ "/addon/package.json") ≠
      (pathJoin (jsDirname initCwd) "addon" ++ "/test-app/app/templates") :=
    append_ne_append _ _ _ _ (by decide) (by decide)
  have p7 : (jsDirname initCwd ++ "/addon/package.json") ≠
      (pathJoin (jsDirname initCwd) "addon" ++ "/test-app/app/templates/docs") :=
    append_ne_append _ _ _ _ (by decide) (by decide)
  rcases hman with ⟨hn0, hd0⟩ | ⟨c, m, hc, hm⟩
  · have hback1 := Part0.setupDoc_after_no_manifest_p0 parse initCwd fs hn0 hd0
    obtain ⟨s1, he1, -, -, -, -, -, hc1f, hc1df, -, -, -⟩ :=
      Part0.pass_ok (pathJoin (jsDirname initCwd) "addon") none none
        ((((St.init fs).info "ADDON ROOT").warn "Could not find parent package.json").info
          ("Setting up ember-cli-addon-docs for " ++ jsInterp none ++ "..."))
        hrd
    have hpkgf : s1.fs.files (jsDirname initCwd ++ "/addon/package.json") =
        fs.files (jsDirname initCwd ++ "/addon/package.json") :=
      hc1f _ p1 p2 p3 p4 p5
    have hpkgd : s1.fs.dirs (jsDirname initCwd ++ "/addon/package.json") =
        fs.dirs (jsDirname initCwd ++ "/addon/package.json") :=
      hc1df _ p6 p7
    have hback2 := Part0.setupDoc_after_no_manifest_p0 parse initCwd s1.fs
      (hpkgf.trans hn0) (hpkgd.trans hd0)
    obtain ⟨s2, he2, hff, hdd, hww⟩ :=
      Part0.tail_idem (pathJoin (jsDirname initCwd) "addon") none none
        ((((St.init fs).info "ADDON ROOT").warn "Could not find parent package.json").info
          ("Setting up ember-cli-addon-docs for " ++ jsInterp none ++ "..."))
        ((((St.init s1.fs).info "ADDON ROOT").warn "Could not find parent package.json").info
          ("Setting up ember-cli-addon-docs for " ++ jsInterp none ++ "..."))
        s1 rfl rfl rfl hrd he1
    exact ⟨s1, s2, by rw [hback1]; exact he1, by rw [hback2]; exact he2, hff, hdd, hww⟩
  · have hback1 := Part0.setupDoc_after_manifest_p0 parse initCwd fs c m hc hm
    obtain ⟨s1, he1, -, -, -, -, -, hc1f, hc1df, -, -, -⟩ :=
      Part0.pass_ok (pathJoin (jsDirname initCwd) "addon") (m.lookup "name")
        (m.lookup "repository")
        (((St.init fs).info "ADDON ROOT").info
          ("Setting up ember-cli-addon-docs for " ++ jsInterp (m.lookup "name") ++ "..."))
        hrd
    have hpkgf : s1.fs.files (jsDirname initCwd ++ "/addon/package.json") =
        fs.files (jsDirname initCwd ++ "/addon/package.json") :=
      hc1f _ p1 p2 p3 p4 p5
    have hback2 := Part0.setupDoc_after_manifest_p0 parse initCwd s1.fs c m
      (hpkgf.trans hc) hm
    obtain ⟨s2, he2, hff, hdd, hww⟩ :=
      Part0.tail_idem (pathJoin (jsDirname initCwd) "addon") (m.lookup "name")
        (m.lookup "repository")
        (((St.init fs).info "ADDON ROOT").info
          ("Setting up ember-cli-addon-docs for " ++ jsInterp (m.lookup "name") ++ "..."))
        (((St.init s1.fs).info "ADDON ROOT").info
          ("Setting up ember-cli-addon-docs for " ++ jsInterp (m.lookup "name") ++ "..."))
        s1 rfl rfl rfl hrd he1
    exact ⟨s1, s2, by rw [hback1]; exact he1, by rw [hback2]; exact he2, hff, hdd, hww⟩

/-- Witness for C8 at a concrete input: the demo filesystem with a valid
manifest, README, and pre-existing router file. -/
theorem claim8_witness :
    ∃ st1 st2, Part0.setupDoc parseFoo "/proj/test-app" (St.init fsDemo) = Except.ok st1 ∧
      Part0.setupDoc parseFoo "/proj/test-app" (St.init st1.fs) = Except.ok st2 ∧
      st2.fs.files = st1.fs.files ∧ st2.fs.dirs = st1.fs.dirs ∧
      writesOf st2.events = writesOf st1.events :=
  claim8_idempotent parseFoo "/proj/test-app" fsDemo
    (Or.inr ⟨"PKG", [("name", "Foo"), ("repository", "https://x")], by decide, by decide⟩)
    (by decide)
